import Mathlib

/-
Verification development for the ai-support-agent-system repository.

The development shallowly embeds the two core subsystems of the service:

* `app/rag/vector_db.py` — the FAISS-backed vector index manager
  (`VectorDBManager` with `load_or_create_index`, `_create_empty_index`,
  `upsert_vectors`, `search_vectors`, `save_index`), together with the
  fragment of numpy/faiss semantics those methods rely on
  (`np.array(...).shape` unpacking, `IndexFlatL2.add`, `IndexFlatL2.search`);

* `app/agent/core.py` — the LangGraph agent orchestrator
  (`AgentState`, the nodes `retrieve_documents`,
  `generate_response_or_tool_call`, `execute_tool`, the conditional edge
  `should_continue`, the compiled graph of `build_graph`), the two tools
  (`_execute_calculator`, which calls Python `eval`, and `_execute_weather`),
  and the response shaping of `app/api/v1/agent_api.py` (`chat_endpoint`).

Modelling conventions:

* Python floats are modelled as exact rationals (`ℚ`); FAISS `IndexFlatL2`
  returns squared L2 distances, which are polynomial in the inputs, so the
  ordering facts proved here are exact-arithmetic statements.
* Python dict values reachable in this code are modelled by the inductive
  type `PyVal`; `dict.get` with defaults and Python truthiness are modelled
  explicitly because the code branches on them.
* The `doc_store` dict of `VectorDBManager` is keyed by `str(i)` for
  integers `i` in the source; since `str` is injective on integers and the
  keys are only ever compared for equality, the store is keyed here by the
  integer itself.
* External calls (`embed_query`, `llm.invoke`) are oracle parameters; the
  LLM oracle receives the call index and the exact message list the code
  sends, and returns either an `AIMessage` (content plus tool calls) or the
  message of a raised exception.
* LangGraph semantics: a node returns a partial state update; the channel
  `messages` is declared with the reducer `lambda left, right: left + right`,
  so the new channel value is the old list concatenated with the returned
  list, while the other channels are overwritten.  A run executes nodes one
  at a time and raises `GraphRecursionError` when the number of executed
  nodes exceeds the recursion limit (default 25); this is modelled by fuel.
-/

namespace SupportAgent

/-- A single-quote character, used when rendering Python `repr` strings. -/
def sq : String := String.singleton (Char.ofNat 39)

/-- Python values reachable in this code base: ints, floats (modelled as
exact rationals), strings, built-in function objects, `None`, string-keyed
dicts and lists. -/
inductive PyVal where
  | int (n : Int)
  | float (q : ℚ)
  | str (s : String)
  | builtin (name : String)
  | pynone
  | dict (entries : List (String × PyVal))
  | list (elems : List PyVal)

/-- Python truthiness (`if value:`): zero numbers, empty strings, empty
containers and `None` are falsy. -/
def PyVal.truthy : PyVal → Bool
  | .int n => n != 0
  | .float q => q != 0
  | .str s => s != ""
  | .builtin _ => true
  | .pynone => false
  | .dict es => !es.isEmpty
  | .list vs => !vs.isEmpty

/-- Python `d.get(key, default)` on a string-keyed dict value; on a
non-dict value the code never calls `.get`, so any other value yields the
default. -/
def pyDictGet (v : PyVal) (key : String) (dflt : PyVal) : PyVal :=
  match v with
  | .dict es =>
    match es.find? (fun p => p.1 == key) with
    | some p => p.2
    | none => dflt
  | _ => dflt

/-- Extract the string carried by a `PyVal`; in the places this is used the
value is provably a Python `str`, so the non-`str` branches are dead. -/
def asString : PyVal → String
  | .str s => s
  | _ => ""

/-- Extract the numeric value carried by a `PyVal` (dead default `0`). -/
def asRat : PyVal → ℚ
  | .float q => q
  | .int n => (n : ℚ)
  | _ => 0

/-- Python `repr` of the atomic values that occur in this program; the
container cases recurse only one level because the program only ever
renders dicts/lists of atoms (tool argument dicts and tool output lists). -/
def pyReprAtom : PyVal → String
  | .int n => toString n
  | .float q => if q.den = 1 then toString q.num ++ ".0" else toString q
  | .str s => sq ++ s ++ sq
  | .builtin name => "<built-in function " ++ name ++ ">"
  | .pynone => "None"
  | .dict _ => "<dict>"
  | .list _ => "<list>"

/-- Comma-join used by Python container reprs. -/
def joinComma : List String → String
  | [] => ""
  | [s] => s
  | s :: rest => s ++ ", " ++ joinComma rest

/-- Python `repr` of a value, to the nesting depth that occurs here. -/
def pyRepr : PyVal → String
  | .dict es => "\x7b" ++ joinComma (es.map fun p => sq ++ p.1 ++ sq ++ ": " ++ pyReprAtom p.2) ++ "\x7d"
  | .list vs => "[" ++ joinComma (vs.map pyReprAtom) ++ "]"
  | v => pyReprAtom v

/-- Python `str()` of a value (`str` of a `str` has no quotes; containers
fall back to their repr). -/
def pyStrOf : PyVal → String
  | .str s => s
  | v => pyRepr v

/-- JSON rendering of one tool output, as produced by `json.dumps` in
`execute_tool` (string escaping is not exercised by this program and is
left naive). -/
def jsonAtom : PyVal → String
  | .str s => "\"" ++ s ++ "\""
  | .int n => toString n
  | .float q => if q.den = 1 then toString q.num ++ ".0" else toString q
  | .pynone => "null"
  | .dict es => "\x7b" ++ joinComma (es.map fun p => "\"" ++ p.1 ++ "\": " ++ "\"" ++ asString p.2 ++ "\"") ++ "\x7d"
  | .list _ => "[]"
  | .builtin name => "<built-in function " ++ name ++ ">"

/-- Rendering of `json.dumps(tool_outputs)` for the list of tool outputs. -/
def jsonDumpsList (outs : List PyVal) : String :=
  "[" ++ joinComma (outs.map jsonAtom) ++ "]"

/-! ### Python string methods

The source uses `str.startswith`, `str.replace` (which replaces ALL
non-overlapping occurrences, left to right) and `str.strip`.  They are
modelled directly on character lists so that concrete runs reduce. -/

/-- Python `s.startswith(p)`. -/
def pyStartsWith (s p : String) : Bool :=
  p.toList.isPrefixOf s.toList

/-- The scan of `str.replace`: at each position, if the pattern matches,
emit the replacement and continue after the match, else keep the
character.  Fuel only bounds the recursion (one character is consumed per
step); the pattern is non-empty at the call sites. -/
def replaceFuel (pat repl : List Char) : Nat → List Char → List Char
  | 0, cs => cs
  | _ + 1, [] => []
  | fuel + 1, c :: cs =>
    if pat.isPrefixOf (c :: cs) then
      repl ++ replaceFuel pat repl fuel (cs.drop (pat.length - 1))
    else c :: replaceFuel pat repl fuel cs

/-- Python `s.replace(pat, repl)`. -/
def pyReplace (s pat repl : String) : String :=
  String.mk (replaceFuel pat.toList repl.toList (s.toList.length + 1) s.toList)

/-- The whitespace set of `str.strip()`. -/
def isPyWhitespace (c : Char) : Bool :=
  c == ' ' || c == '\t' || c == '\n' || c == '\r' || c == '\x0b' || c == '\x0c'

/-- Python `s.strip()`. -/
def pyStrip (s : String) : String :=
  String.mk (((s.toList.dropWhile isPyWhitespace).reverse.dropWhile isPyWhitespace).reverse)

/-- Substring containment (`needle in haystack` for strings). -/
def containsSubChars (pat : List Char) : List Char → Bool
  | [] => pat.isEmpty
  | c :: cs => pat.isPrefixOf (c :: cs) || containsSubChars pat cs

def pyContainsSub (haystack needle : String) : Bool :=
  containsSubChars needle.toList haystack.toList

/-! ## FAISS `IndexFlatL2` and the numpy fragment used by `vector_db.py` -/

/-- The FAISS `IndexFlatL2` object: a dimension and the stored vectors in
insertion order.  The internal (sequential) id of a vector is its position
in `xb`; `ntotal` is the number of stored vectors. -/
structure FaissIndexFlatL2 where
  d : Nat
  xb : List (List ℚ)

/-- The vector count `index.ntotal`. -/
def FaissIndexFlatL2.ntotal (idx : FaissIndexFlatL2) : Nat := idx.xb.length

/-- The shape of `np.array(rows)` for a list of equal-length rows: the
empty list yields a one-dimensional array of shape `(0,)`, a non-empty
list yields shape `(n, d)`.  (Ragged inputs build object arrays and fail
later; all call sites proved about here pass equal-length rows.) -/
def npShape (rows : List (List ℚ)) : List Nat :=
  match rows with
  | [] => [0]
  | r :: _ => [rows.length, r.length]

/-- Model of `IndexFlatL2.add(x)`: the faiss python wrapper runs `n, d = x.shape`
(a `ValueError` on a 1-dimensional array, i.e. on `np.array([])`), asserts
`d == self.d`, and appends the rows. -/
def faissAdd (idx : FaissIndexFlatL2) (rows : List (List ℚ)) : Except String FaissIndexFlatL2 :=
  match npShape rows with
  | [_, d] =>
    if d = idx.d then .ok { idx with xb := idx.xb ++ rows }
    else .error "AssertionError: d == self.d"
  | _ => .error "ValueError: not enough values to unpack (expected 2, got 1)"

/-- Squared L2 distance, the metric of `IndexFlatL2` (faiss returns squared
distances; the code never takes a square root). -/
def sqL2 (q v : List ℚ) : ℚ :=
  ((q.zip v).map fun p => (p.1 - p.2) * (p.1 - p.2)).sum

/-- Ordering of `(distance, id)` pairs used by the exact k-NN search:
strictly smaller distance first, ties broken by ascending insertion id. -/
def scoreIdLe (a b : ℚ × Nat) : Prop :=
  a.1 < b.1 ∨ (a.1 = b.1 ∧ a.2 ≤ b.2)

instance : DecidableRel scoreIdLe := fun a b => by
  unfold scoreIdLe; infer_instance

instance : IsTotal (ℚ × Nat) scoreIdLe := by
  constructor
  intro a b
  rcases lt_trichotomy a.1 b.1 with h | h | h
  · exact Or.inl (Or.inl h)
  · rcases Nat.le_total a.2 b.2 with h2 | h2
    · exact Or.inl (Or.inr ⟨h, h2⟩)
    · exact Or.inr (Or.inr ⟨h.symm, h2⟩)
  · exact Or.inr (Or.inl h)

instance : IsTrans (ℚ × Nat) scoreIdLe := by
  constructor
  rintro a b c (hab | ⟨hab, hab2⟩) (hbc | ⟨hbc, hbc2⟩)
  · exact Or.inl (lt_trans hab hbc)
  · exact Or.inl (hbc ▸ hab)
  · exact Or.inl (hab ▸ hbc)
  · exact Or.inr ⟨hab.trans hbc, le_trans hab2 hbc2⟩

/-- All `(distance, id)` pairs of an index for a query vector. -/
def faissScores (idx : FaissIndexFlatL2) (q : List ℚ) : List (ℚ × Nat) :=
  idx.xb.enum.map fun p => (sqL2 q p.2, p.1)

/-- The `min k ntotal` best `(distance, id)` pairs, best first. -/
def faissTop (idx : FaissIndexFlatL2) (q : List ℚ) (k : Nat) : List (ℚ × Nat) :=
  (List.insertionSort scoreIdLe (faissScores idx q)).take k

/-- Model of `IndexFlatL2.search(x, k)` for a single query row: the wrapper asserts
the query dimension, then returns `k` slots; when `k` exceeds `ntotal` the
extra slots carry id `-1` (their distances are never read by the caller,
which skips `-1` ids first). -/
def faissSearch (idx : FaissIndexFlatL2) (q : List ℚ) (k : Nat) : Except String (List (ℚ × Int)) :=
  if q.length = idx.d then
    .ok (((faissTop idx q k).map fun p => (p.1, (p.2 : Int))) ++
      List.replicate (k - min k idx.ntotal) ((0 : ℚ), (-1 : Int)))
  else .error "AssertionError: d == self.d"

/-! ## `VectorDBManager` (`app/rag/vector_db.py`) -/

/-- The payload dict `self.doc_store`, keyed (see the header note) by the
integer whose decimal string the source uses as key. -/
abbrev DocStore := List (Int × PyVal)

/-- Lookup `self.doc_store.get(str(idx))`. -/
def lookupPayload (store : DocStore) (key : Int) : Option PyVal :=
  (store.find? fun p => p.1 == key).map Prod.snd

/-- Python dict assignment `store[key] = v`: replace in place when the key
exists, append otherwise. -/
def dictSet (store : DocStore) (key : Int) (v : PyVal) : DocStore :=
  if (store.find? fun p => p.1 == key).isSome then
    store.map fun p => if p.1 == key then (key, v) else p
  else store ++ [(key, v)]

/-- The manager object: the (optional, `None` until created/loaded) FAISS
index and the payload dict. -/
structure VectorDBManager where
  index : Option FaissIndexFlatL2
  doc_store : DocStore

/-- State after `VectorDBManager.__init__`: no index yet, empty doc store. -/
def freshManager : VectorDBManager :=
  { index := none, doc_store := [] }

/-- Model of `_create_empty_index(vector_size)`: new empty `IndexFlatL2`, doc store
reset. -/
def create_empty_index (vector_size : Nat) : VectorDBManager :=
  { index := some { d := vector_size, xb := [] }, doc_store := [] }

/-- The serialized index file on disk (`faiss.write_index` output), absent
when no save happened.  `read_index` restores the saved structure exactly. -/
abbrev Disk := Option FaissIndexFlatL2

/-- Model of `save_index`: writes only the FAISS index (the source explicitly does
not persist `doc_store`); with no index, logs a warning and writes
nothing. -/
def save_index (m : VectorDBManager) (disk : Disk) : Disk :=
  match m.index with
  | some idx => some idx
  | none => disk

/-- Model of `load_or_create_index(vector_size)`: if the file exists, read the index
(`doc_store` is left as it is — the source does not load payloads);
otherwise create a new empty index. -/
def load_or_create_index (m : VectorDBManager) (disk : Disk) (vector_size : Nat) : VectorDBManager :=
  match disk with
  | some idx => { m with index := some idx }
  | none => create_empty_index vector_size

/-- The `for i, payload in enumerate(payloads):` loop of `upsert_vectors`:
stores each payload under key `current_total - len(payloads) + i`. -/
def storePayloads (current_total : Int) (count : Nat) : Nat → DocStore → List PyVal → DocStore
  | _, store, [] => store
  | i, store, payload :: rest =>
    storePayloads current_total count (i + 1)
      (dictSet store (current_total - (count : Int) + (i : Int)) payload) rest

/-- Model of `upsert_vectors(ids, vectors, payloads)`: raises when the index is not
initialized; converts `vectors` to a numpy array and calls `index.add`
(whose failure propagates before any mutation); then stores each payload
under the next sequential ids.  `ids` is accepted and ignored by the
source. -/
def upsert_vectors (m : VectorDBManager) (ids : List String) (vectors : List (List ℚ))
    (payloads : List PyVal) : Except String VectorDBManager :=
  match m.index with
  | none => .error "RuntimeError: FAISS index not initialized. Call load_or_create_index or _create_empty_index first."
  | some idx =>
    match faissAdd idx vectors with
    | .error e => .error e
    | .ok idx2 =>
      .ok { index := some idx2,
            doc_store := storePayloads (idx2.ntotal : Int) payloads.length 0 m.doc_store payloads }

/-- The manager state after an `upsert_vectors` call: the new state on
success, the unchanged state when the call raised (the exception is thrown
before any mutation). -/
def upsertResult (m : VectorDBManager) (ids : List String) (vectors : List (List ℚ))
    (payloads : List PyVal) : VectorDBManager :=
  match upsert_vectors m ids vectors payloads with
  | .ok m2 => m2
  | .error _ => m

/-- The result loop of `search_vectors`: skip `-1` slots, look the id up in
the doc store, keep the result only when the payload is present and truthy
(`if payload:`), and wrap it as `{"payload": ..., "score": ...}`. -/
def searchHits (store : DocStore) : List (ℚ × Int) → List PyVal
  | [] => []
  | (dist, idx) :: rest =>
    if idx = -1 then searchHits store rest
    else
      match lookupPayload store idx with
      | some payload =>
        if payload.truthy then
          PyVal.dict [("payload", payload), ("score", PyVal.float dist)] :: searchHits store rest
        else searchHits store rest
      | none => searchHits store rest

/-- Model of `search_vectors(query_vector, limit)`: returns `[]` when the index is `None`;
otherwise the FAISS search (whose dimension assertion propagates out of
this method) followed by the payload-filtering loop. -/
def search_vectors (m : VectorDBManager) (q : List ℚ) (limit : Nat) : Except String (List PyVal) :=
  match m.index with
  | none => .ok []
  | some idx =>
    match faissSearch idx q limit with
    | .error e => .error e
    | .ok pairs => .ok (searchHits m.doc_store pairs)

/-- The co-indexing invariant of §3 of the spec, on the key structure: the
doc store has exactly the keys `0 .. ntotal - 1`, in insertion order. -/
def coKeys (m : VectorDBManager) (idx : FaissIndexFlatL2) : Prop :=
  m.doc_store.map Prod.fst = (List.range idx.ntotal).map Int.ofNat

/-- All stored payloads are truthy (every real payload is a non-empty
dict, so `if payload:` keeps it). -/
def truthyStore (m : VectorDBManager) : Prop :=
  ∀ p ∈ m.doc_store, p.2.truthy = true

/-- The score field of a wrapped search result. -/
def resultScore (v : PyVal) : ℚ :=
  asRat (pyDictGet v "score" (PyVal.float 0))

/-- The payload stored for internal id `i` (defaulting to `None`; under
the co-indexing invariant the lookup always succeeds for `i < ntotal`). -/
def payloadAt (store : DocStore) (i : Nat) : PyVal :=
  (lookupPayload store (i : Int)).getD PyVal.pynone

/-! ## The calculator tool: Python `eval` on the expression string

`_execute_calculator` runs `eval(expression)` on the raw tool argument.
The fragment of Python expression semantics reachable through an
expression string is modelled exactly for integer literals, identifiers,
unary minus and the binary operators `+ - * /` with Python precedence;
identifiers resolve in the builtins environment that `eval` provides.
Anything outside this fragment (attribute access, calls, ...) raises or
returns further objects; the claims are decided inside the fragment. -/

inductive Tok where
  | num (n : Nat)
  | ident (s : String)
  | plus
  | minus
  | star
  | slash
  | lparen
  | rparen

def isIdentStart (c : Char) : Bool := c.isAlpha || c == '_'

def isIdentChar (c : Char) : Bool := c.isAlphanum || c == '_'

def digitsToNat (ds : List Char) : Nat :=
  ds.foldl (fun acc c => 10 * acc + (c.toNat - 48)) 0

/-- The CPython tokenizer, restricted to the characters an arithmetic or
identifier expression can contain; any other character is a syntax
error.  The fuel argument only bounds the recursion (each step consumes
at least one character, and the caller passes the input length plus one,
so the fuel branch is unreachable). -/
def tokenizeFuel : Nat → List Char → Except String (List Tok)
  | 0, _ => .error "SyntaxError: invalid syntax"
  | _ + 1, [] => .ok []
  | fuel + 1, c :: cs =>
    if c == ' ' || c == '\t' then tokenizeFuel fuel cs
    else if c.isDigit then
      match tokenizeFuel fuel (cs.dropWhile Char.isDigit) with
      | .ok ts => .ok (Tok.num (digitsToNat (c :: cs.takeWhile Char.isDigit)) :: ts)
      | .error e => .error e
    else if isIdentStart c then
      match tokenizeFuel fuel (cs.dropWhile isIdentChar) with
      | .ok ts => .ok (Tok.ident (String.mk (c :: cs.takeWhile isIdentChar)) :: ts)
      | .error e => .error e
    else if c == '+' then (tokenizeFuel fuel cs).map (Tok.plus :: ·)
    else if c == '-' then (tokenizeFuel fuel cs).map (Tok.minus :: ·)
    else if c == '*' then (tokenizeFuel fuel cs).map (Tok.star :: ·)
    else if c == '/' then (tokenizeFuel fuel cs).map (Tok.slash :: ·)
    else if c == '(' then (tokenizeFuel fuel cs).map (Tok.lparen :: ·)
    else if c == ')' then (tokenizeFuel fuel cs).map (Tok.rparen :: ·)
    else .error "SyntaxError: invalid syntax"

def tokenizeChars (cs : List Char) : Except String (List Tok) :=
  tokenizeFuel (cs.length + 1) cs

/-- The Python expression AST fragment reachable from a tokenized
arithmetic/identifier string. -/
inductive PyExpr where
  | num (n : Int)
  | name (s : String)
  | neg (e : PyExpr)
  | add (a b : PyExpr)
  | sub (a b : PyExpr)
  | mul (a b : PyExpr)
  | div (a b : PyExpr)

mutual

/-- Grammar rule for expressions, term-level operators `+` and `-` applied
left to right (fuel-based recursion; the fuel
supplied by `pyParse` always suffices). -/
def parseExprTok : Nat → List Tok → Except String (PyExpr × List Tok)
  | 0, _ => .error "SyntaxError: expression nesting"
  | fuel + 1, ts =>
    match parseTermTok fuel ts with
    | .ok (e, rest) => parseExprMore fuel e rest
    | .error e => .error e

def parseExprMore : Nat → PyExpr → List Tok → Except String (PyExpr × List Tok)
  | 0, _, _ => .error "SyntaxError: expression nesting"
  | fuel + 1, acc, Tok.plus :: rest =>
    match parseTermTok fuel rest with
    | .ok (t, rest2) => parseExprMore fuel (PyExpr.add acc t) rest2
    | .error e => .error e
  | fuel + 1, acc, Tok.minus :: rest =>
    match parseTermTok fuel rest with
    | .ok (t, rest2) => parseExprMore fuel (PyExpr.sub acc t) rest2
    | .error e => .error e
  | _ + 1, acc, ts => .ok (acc, ts)

/-- Grammar rule for terms, factor-level operators `*` and `/` applied left
to right. -/
def parseTermTok : Nat → List Tok → Except String (PyExpr × List Tok)
  | 0, _ => .error "SyntaxError: expression nesting"
  | fuel + 1, ts =>
    match parseFactorTok fuel ts with
    | .ok (e, rest) => parseTermMore fuel e rest
    | .error e => .error e

def parseTermMore : Nat → PyExpr → List Tok → Except String (PyExpr × List Tok)
  | 0, _, _ => .error "SyntaxError: expression nesting"
  | fuel + 1, acc, Tok.star :: rest =>
    match parseFactorTok fuel rest with
    | .ok (t, rest2) => parseTermMore fuel (PyExpr.mul acc t) rest2
    | .error e => .error e
  | fuel + 1, acc, Tok.slash :: rest =>
    match parseFactorTok fuel rest with
    | .ok (t, rest2) => parseTermMore fuel (PyExpr.div acc t) rest2
    | .error e => .error e
  | _ + 1, acc, ts => .ok (acc, ts)

/-- Grammar rule for factors: a number, an identifier, a negated factor or
a parenthesized expression. -/
def parseFactorTok : Nat → List Tok → Except String (PyExpr × List Tok)
  | 0, _ => .error "SyntaxError: expression nesting"
  | fuel + 1, ts =>
    match ts with
    | Tok.num n :: rest => .ok (PyExpr.num (n : Int), rest)
    | Tok.ident s :: rest => .ok (PyExpr.name s, rest)
    | Tok.minus :: rest =>
      match parseFactorTok fuel rest with
      | .ok (e, rest2) => .ok (PyExpr.neg e, rest2)
      | .error e => .error e
    | Tok.lparen :: rest =>
      match parseExprTok fuel rest with
      | .ok (e, Tok.rparen :: rest2) => .ok (e, rest2)
      | .ok _ => .error "SyntaxError: invalid syntax"
      | .error e => .error e
    | _ => .error "SyntaxError: invalid syntax"

end

/-- Parse an expression string the way `eval` compiles it. -/
def pyParse (s : String) : Except String PyExpr :=
  match tokenizeChars s.toList with
  | .error e => .error e
  | .ok ts =>
    match parseExprTok (2 * ts.length + 2) ts with
    | .ok (e, []) => .ok e
    | .ok _ => .error "SyntaxError: invalid syntax"
    | .error e => .error e

/-- The names `eval` resolves in its default builtins environment (the
relevant fact is that ordinary builtins are present and evaluate without
error). -/
def pyBuiltinNames : List String :=
  ["abs", "len", "min", "max", "sum", "pow", "print", "eval", "__import__"]

def pyNeg : PyVal → Except String PyVal
  | .int n => .ok (.int (-n))
  | .float q => .ok (.float (-q))
  | _ => .error "TypeError: bad operand type for unary -"

def pyAdd : PyVal → PyVal → Except String PyVal
  | .int x, .int y => .ok (.int (x + y))
  | .int x, .float y => .ok (.float ((x : ℚ) + y))
  | .float x, .int y => .ok (.float (x + (y : ℚ)))
  | .float x, .float y => .ok (.float (x + y))
  | .str x, .str y => .ok (.str (x ++ y))
  | _, _ => .error "TypeError: unsupported operand type(s) for +"

def pySub : PyVal → PyVal → Except String PyVal
  | .int x, .int y => .ok (.int (x - y))
  | .int x, .float y => .ok (.float ((x : ℚ) - y))
  | .float x, .int y => .ok (.float (x - (y : ℚ)))
  | .float x, .float y => .ok (.float (x - y))
  | _, _ => .error "TypeError: unsupported operand type(s) for -"

def pyMul : PyVal → PyVal → Except String PyVal
  | .int x, .int y => .ok (.int (x * y))
  | .int x, .float y => .ok (.float ((x : ℚ) * y))
  | .float x, .int y => .ok (.float (x * (y : ℚ)))
  | .float x, .float y => .ok (.float (x * y))
  | _, _ => .error "TypeError: unsupported operand type(s) for *"

/-- Python 3 true division: numeric operands yield a float (here an exact
rational), division by zero raises. -/
def pyDiv : PyVal → PyVal → Except String PyVal
  | .int x, .int y =>
    if y = 0 then .error "ZeroDivisionError: division by zero"
    else .ok (.float ((x : ℚ) / (y : ℚ)))
  | .int x, .float y =>
    if y = 0 then .error "ZeroDivisionError: float division by zero"
    else .ok (.float ((x : ℚ) / y))
  | .float x, .int y =>
    if y = 0 then .error "ZeroDivisionError: float division by zero"
    else .ok (.float (x / (y : ℚ)))
  | .float x, .float y =>
    if y = 0 then .error "ZeroDivisionError: float division by zero"
    else .ok (.float (x / y))
  | _, _ => .error "TypeError: unsupported operand type(s) for /"

/-- Evaluation of the AST fragment, as `eval` performs it: literals are
values, names resolve among the builtins (a `NameError` otherwise), the
arithmetic operators apply Python numeric semantics. -/
def pyEvalAst : PyExpr → Except String PyVal
  | .num n => .ok (.int n)
  | .name s =>
    if s ∈ pyBuiltinNames then .ok (.builtin s)
    else .error ("NameError: name " ++ sq ++ s ++ sq ++ " is not defined")
  | .neg e =>
    match pyEvalAst e with
    | .ok v => pyNeg v
    | .error e => .error e
  | .add a b =>
    match pyEvalAst a, pyEvalAst b with
    | .ok x, .ok y => pyAdd x y
    | .error e, _ => .error e
    | _, .error e => .error e
  | .sub a b =>
    match pyEvalAst a, pyEvalAst b with
    | .ok x, .ok y => pySub x y
    | .error e, _ => .error e
    | _, .error e => .error e
  | .mul a b =>
    match pyEvalAst a, pyEvalAst b with
    | .ok x, .ok y => pyMul x y
    | .error e, _ => .error e
    | _, .error e => .error e
  | .div a b =>
    match pyEvalAst a, pyEvalAst b with
    | .ok x, .ok y => pyDiv x y
    | .error e, _ => .error e
    | _, .error e => .error e

/-- Evaluation `eval(expression)` of the parsed string. -/
def pyEvalString (expression : String) : Except String PyVal :=
  match pyParse expression with
  | .ok ast => pyEvalAst ast
  | .error e => .error e

/-- Model of `Agent._execute_calculator`: `str(eval(expression))`, any exception
caught and rendered as an error string. -/
def execute_calculator (expression : String) : String :=
  match pyEvalString expression with
  | .ok v => pyStrOf v
  | .error e => "Error: Could not calculate. " ++ e

/-- Model of `Agent._execute_weather`: the mock city table with its fallback
string. -/
def execute_weather (city : String) : String :=
  if city = "Hyderabad" then "Sunny, 25°C, Light breeze"
  else if city = "Mumbai" then "Cloudy, 20°C, Chance of rain"
  else if city = "Chennai" then "Partly cloudy, 28°C, High humidity"
  else if city = "Bengaluru" then "Monsoon showers, 23°C, Moderate wind"
  else "Weather data not available for this city. Please try London, New York, Tokyo, or Bengaluru."

/-- An AST with no identifiers (and hence no calls or attributes): the
purely arithmetic fragment of the grammar. -/
def nameFree : PyExpr → Bool
  | .num _ => true
  | .name _ => false
  | .neg e => nameFree e
  | .add a b => nameFree a && nameFree b
  | .sub a b => nameFree a && nameFree b
  | .mul a b => nameFree a && nameFree b
  | .div a b => nameFree a && nameFree b

/-- Characters of a purely arithmetic input string (numbers, operators,
parentheses, blanks): an input containing any other character — e.g. an
identifier — is not an arithmetic expression. -/
def isArithChar (c : Char) : Bool :=
  c.isDigit || c == '+' || c == '-' || c == '*' || c == '/' ||
    c == '(' || c == ')' || c == ' ' || c == '\t' || c == '.'

def isArithInput (s : String) : Bool := s.toList.all isArithChar

/-! ## The agent orchestrator (`app/agent/core.py`) -/

/-- A tool invocation request carried by an `AIMessage`
(`{"name": ..., "args": ..., "id": ...}`). -/
structure ToolCall where
  name : String
  args : List (String × PyVal)
  id : String

/-- The value of `llm.invoke` on success: an `AIMessage` with text content
and zero or more tool calls. -/
structure AIResp where
  content : String
  tool_calls : List ToolCall

/-- LangChain message objects as used here: `HumanMessage`, `AIMessage`
(with its `tool_calls`), `SystemMessage`, `ToolMessage` (content plus
`tool_call_id`). -/
inductive Message where
  | human (content : String)
  | ai (content : String) (tool_calls : List ToolCall)
  | system (content : String)
  | tool (content : String) (tool_call_id : String)

/-- A retrieved `Document`: `page_content` plus the `source` and `score`
metadata entries written by `retrieve_documents`. -/
structure Document where
  page_content : String
  source : String
  score : ℚ

/-- The `AgentState` TypedDict.  `tool_output` holds the Python list of
tool outputs (or `None`). -/
structure AgentState where
  messages : List Message
  relevant_docs : List Document
  tool_calls : List ToolCall
  tool_output : Option (List PyVal)
  clarifying_question : Option String

/-- The dict of channel values a node returns. -/
structure NodeUpdate where
  messages : List Message
  relevant_docs : List Document
  tool_calls : List ToolCall
  tool_output : Option (List PyVal)
  clarifying_question : Option String

/-- LangGraph channel application: `messages` is annotated with the
reducer `lambda left, right: left + right`, so the update is concatenated
onto the existing list; every other channel is overwritten. -/
def applyUpdate (s : AgentState) (u : NodeUpdate) : AgentState :=
  { messages := s.messages ++ u.messages,
    relevant_docs := u.relevant_docs,
    tool_calls := u.tool_calls,
    tool_output := u.tool_output,
    clarifying_question := u.clarifying_question }

/-- The backward scan of `retrieve_documents`: the content of the most
recent `HumanMessage`, if any. -/
def latestHumanContent (ms : List Message) : Option String :=
  ms.reverse.findSome? fun m =>
    match m with
    | .human c => some c
    | _ => none

/-- Build one retrieved `Document` from a raw search result: the source
reads `res.get("content", ...)` and `res.get("source", ...)` on the
result dict itself (whose keys are `payload` and `score`), and
`res["score"]` for the score. -/
def mkDocument (res : PyVal) : Document :=
  { page_content := asString (pyDictGet res "content" (PyVal.str "")),
    source := asString (pyDictGet res "source" (PyVal.str "unknown")),
    score := asRat (pyDictGet res "score" (PyVal.float 0)) }

/-- The empty update `retrieve_documents` returns when it skips or fails
retrieval (it passes the existing messages back through the reducer). -/
def retrieveSkipUpdate (s : AgentState) : NodeUpdate :=
  { messages := s.messages, relevant_docs := [], tool_calls := [],
    tool_output := none, clarifying_question := none }

/-- Model of `Agent.retrieve_documents`: locate the most recent human message
(skip retrieval when there is none or its content is falsy), embed it,
search the index with `limit=5`, and wrap the results as `Document`s; any
exception inside the `try` degrades to an empty document list. -/
def retrieve_documents (embed : String → List ℚ) (db : VectorDBManager)
    (s : AgentState) : NodeUpdate :=
  match latestHumanContent s.messages with
  | none => retrieveSkipUpdate s
  | some c =>
    if c = "" then retrieveSkipUpdate s
    else
      match search_vectors db (embed c) 5 with
      | .error _ => retrieveSkipUpdate s
      | .ok rs =>
        { messages := s.messages, relevant_docs := rs.map mkDocument,
          tool_calls := [], tool_output := none, clarifying_question := none }

/-- The `context_str` block built from the retrieved documents. -/
def contextDocBlock (i : Nat) (doc : Document) : String :=
  "--- Document " ++ toString (i + 1) ++ " ---\n" ++ doc.page_content ++ "\n"

def buildContext (docs : List Document) : String :=
  if docs.isEmpty then ""
  else
    "\n\nRelevant Context:\n" ++
      String.join (docs.enum.map fun p => contextDocBlock p.1 p.2) ++ "\n"

/-- The `tool_output_str` block (`if tool_output:` — an empty list is
falsy). -/
def toolOutputStr : Option (List PyVal) → String
  | some outs =>
    if outs.isEmpty then ""
    else "\n\nTool Output:\n" ++ pyRepr (PyVal.list outs) ++ "\n"
  | none => ""

/-- The static part of the system prompt of
`generate_response_or_tool_call`. -/
def systemPromptBase : String :=
  "You are an expert AI Support Agent specializing in Kubernetes and general technical inquiries. " ++
  "Your core objective is to provide precise, concise, and actionable answers to user questions. " ++
  "Always prioritize clarity and helpfulness.\n\n" ++
  "**Available Tools:**\n" ++
  "1. `calculator`: Performs basic arithmetic calculations. Input: `\x7b\"expression\": \"2 + 2 * 3\"\x7d`. Use this for mathematical calculations.\n" ++
  "2. `weather`: Retrieves current weather information for a specified city. Input: `\x7b\"city\": \"London\"\x7d`. Use this to get current weather conditions.\n\n" ++
  "**Instructions:**\n" ++
  "1. **Leverage Provided Context:** Always prioritize answering questions using the " ++ sq ++ "Relevant Context" ++ sq ++ " provided from the internal knowledge base. Synthesize information from these documents to formulate your response.\n" ++
  "2. **Strategic Tool Utilization:** If the " ++ sq ++ "Relevant Context" ++ sq ++ " is insufficient, or if the query explicitly requires real-time data or computations, utilize the available tools.\n" ++
  "   - **Strict Tool Call Format:** When invoking a tool, use the exact function call syntax and JSON input format specified in the tool" ++ sq ++ "s description. Do not deviate from this format.\n" ++
  "   - Example tool call: `calculator.calculate(expression=" ++ sq ++ "15 * 3" ++ sq ++ ")`\n" ++
  "   - Example tool call: `weather.get_current(city=" ++ sq ++ "New York" ++ sq ++ ")`\n" ++
  "3. **Integrate Tool Results:** If a tool is executed, its output will be provided. Incorporate this output directly and clearly into your final answer to address the user" ++ sq ++ "s original query.\n" ++
  "4. **Handle Ambiguity/Missing Information:** If a query is unclear, lacks sufficient detail for a precise answer, or cannot be fully resolved with current context/tools, you **MUST** ask a clarifying question. Prefix all clarifying questions with " ++ sq ++ "CLARIFY: " ++ sq ++ ".\n" ++
  "   Example: `CLARIFY: What is the application you are looking for (e.g., android, ios, web-app)?`\n" ++
  "5. **Graceful Fallback:** If, after attempting to use tools and seeking clarification, you still cannot provide a complete answer, politely state your limitations and suggest escalating to a human support agent.\n\n"

/-- The full system prompt: instructions, injected RAG context, injected
tool output. -/
def system_prompt (docs : List Document) (tool_output : Option (List PyVal)) : String :=
  systemPromptBase ++ buildContext docs ++ toolOutputStr tool_output

/-- The list `llm_messages`: the synthesized system message prepended to the
conversation history. -/
def llmInput (s : AgentState) : List Message :=
  Message.system (system_prompt s.relevant_docs s.tool_output) :: s.messages

/-- Model of `Agent.generate_response_or_tool_call`, parametrized by the outcome of
`self.llm.invoke(llm_messages)` (an `AIMessage` on success, the raised
message of the raised exception on failure):

* a successful response starting with `"CLARIFY: "` returns only the
  response as the `messages` update and sets `clarifying_question` to
  `response.content.replace("CLARIFY: ", "").strip()`;
* any other successful response returns `messages + [response]`;
* an exception returns `messages + [AIMessage("Error: ...")]`. -/
def generate_response_or_tool_call (resp : Except String AIResp) (s : AgentState) : NodeUpdate :=
  match resp with
  | .ok r =>
    if pyStartsWith r.content "CLARIFY: " then
      { messages := [Message.ai r.content r.tool_calls],
        relevant_docs := s.relevant_docs, tool_calls := [], tool_output := none,
        clarifying_question := some (pyStrip (pyReplace r.content "CLARIFY: " "")) }
    else
      { messages := s.messages ++ [Message.ai r.content r.tool_calls],
        relevant_docs := s.relevant_docs, tool_calls := [], tool_output := none,
        clarifying_question := none }
  | .error e =>
    { messages := s.messages ++
        [Message.ai ("Error: Could not get a response from the AI. " ++ e) []],
      relevant_docs := s.relevant_docs, tool_calls := [], tool_output := none,
      clarifying_question := none }

/-- The attribute `message.tool_calls` (only `AIMessage` carries it; the
graph only reads it on messages produced by the LLM node). -/
def toolCallsOf : Message → List ToolCall
  | .ai _ tcs => tcs
  | _ => []

/-- The last message of the transcript, as read by the source through the
index expression on the messages list (never on an empty list along the
graph paths). -/
def lastMessage (ms : List Message) : Message :=
  ms.getLastD (Message.system "")

/-- The dict `tool_args` rendered as Python renders it in the error
f-string. -/
def reprArgs (args : List (String × PyVal)) : String :=
  pyRepr (PyVal.dict args)

/-- The error string built in the `except` branch of the tool loop. -/
def toolErrorMsg (tc : ToolCall) (e : String) : String :=
  "Error executing tool " ++ sq ++ tc.name ++ sq ++ " with args " ++
    reprArgs tc.args ++ ": " ++ e

/-- One iteration of the tool loop of `execute_tool` (the whole body sits
in a `try/except` which converts any raise into an `{"error": ...}`
output): dispatch on the tool name, check the required argument, invoke
the tool, unknown names raise `ValueError` which is caught. -/
def runOneTool (tc : ToolCall) : PyVal :=
  if tc.name = "calculator" then
    match (tc.args.find? fun p => p.1 == "expression").map Prod.snd with
    | some exprV => PyVal.str (execute_calculator (asString exprV))
    | none =>
      PyVal.dict [("error", PyVal.str (toolErrorMsg tc
        ("Calculator tool requires an " ++ sq ++ "expression" ++ sq ++ " argument.")))]
  else if tc.name = "weather" then
    match (tc.args.find? fun p => p.1 == "city").map Prod.snd with
    | some cityV => PyVal.str (execute_weather (asString cityV))
    | none =>
      PyVal.dict [("error", PyVal.str (toolErrorMsg tc
        ("Weather tool requires a " ++ sq ++ "city" ++ sq ++ " argument.")))]
  else
    PyVal.dict [("error", PyVal.str (toolErrorMsg tc ("Unknown tool: " ++ tc.name)))]

/-- Model of `Agent.execute_tool`: read the tool calls of the last message; with
none, return an empty update; otherwise run every call, append one
`ToolMessage` whose content is `json.dumps` of all outputs and whose
`tool_call_id` is the id of the FIRST request, and set `tool_output`. -/
def execute_tool (s : AgentState) : NodeUpdate :=
  match toolCallsOf (lastMessage s.messages) with
  | [] =>
    { messages := s.messages, relevant_docs := s.relevant_docs,
      tool_calls := [], tool_output := none, clarifying_question := none }
  | tc0 :: rest =>
    { messages := s.messages ++
        [Message.tool (jsonDumpsList ((tc0 :: rest).map runOneTool)) tc0.id],
      relevant_docs := s.relevant_docs, tool_calls := [],
      tool_output := some ((tc0 :: rest).map runOneTool),
      clarifying_question := none }

/-- Truthiness of the clarifying-question field as the source reads it
with a dict get (`None` and the empty
string are falsy). -/
def truthyOptStr : Option String → Bool
  | some s => s != ""
  | none => false

/-- Model of `Agent.should_continue`: clarifying question set → `"clarify"`; last
message has tool calls → `"continue"`; otherwise `"end"`. -/
def should_continue (s : AgentState) : String :=
  if truthyOptStr s.clarifying_question then "clarify"
  else if (toolCallsOf (lastMessage s.messages)).isEmpty then "end"
  else "continue"

/-- Outcome of a graph run: a final state (reached through the `clarify`
or `end` edge) or the LangGraph `GraphRecursionError` when the node budget
is exhausted. -/
inductive RunResult where
  | finished (s : AgentState)
  | recursionError

/-- The `DECIDE → (TOOL_EXEC → DECIDE)*` loop of the compiled graph.  The
LLM oracle receives the index of the call and the message list the code
sends.  Fuel counts executed nodes against the recursion limit. -/
def decideLoop (llm : Nat → List Message → Except String AIResp) :
    Nat → Nat → AgentState → RunResult
  | 0, _, _ => RunResult.recursionError
  | fuel + 1, k, s =>
    let s1 := applyUpdate s (generate_response_or_tool_call (llm k (llmInput s)) s)
    if should_continue s1 = "continue" then
      match fuel with
      | 0 => RunResult.recursionError
      | fuel2 + 1 => decideLoop llm fuel2 (k + 1) (applyUpdate s1 (execute_tool s1))
    else RunResult.finished s1

/-- One full run of the compiled graph of `build_graph`: entry point
`retrieve_documents`, edge to `generate_response_or_tool_call`, the
conditional edge (`continue` → `execute_tool`, `clarify`/`end` → END), and
the edge from `execute_tool` back to the LLM node.  `limit` is the LangGraph
recursion limit (25 by default). -/
def agentRun (embed : String → List ℚ) (db : VectorDBManager)
    (llm : Nat → List Message → Except String AIResp)
    (limit : Nat) (s0 : AgentState) : RunResult :=
  match limit with
  | 0 => RunResult.recursionError
  | fuel + 1 => decideLoop llm fuel 0 (applyUpdate s0 (retrieve_documents embed db s0))

/-- The two terminal states of §4.3. -/
inductive Terminal where
  | answered
  | clarifying

/-- Which terminal state a final graph state represents, following the
check `chat_endpoint` performs (`if clarifying_q:`). -/
def terminalKind (s : AgentState) : Terminal :=
  if truthyOptStr s.clarifying_question then Terminal.clarifying else Terminal.answered

/-- The backward scan of `chat_endpoint` that extracts the final AI
response: stop at the first `AIMessage` without tool calls, or at the
first `HumanMessage` (in which case the content of the last message is used if
the last message is an `AIMessage`). -/
def scanFinal (lastMsg : Message) : List Message → Option String
  | [] => none
  | m :: rest =>
    match m with
    | .ai c tcs => if tcs.isEmpty then some c else scanFinal lastMsg rest
    | .human _ =>
      match lastMsg with
      | .ai c _ => some c
      | _ => none
    | _ => scanFinal lastMsg rest

/-- The fallback of `chat_endpoint` when no final AI response was found
(`if not final_ai_response:` — also taken when the scan produced an empty
string). -/
def chatAnswerFallback (ms : List Message) : String :=
  match lastMessage ms with
  | .ai c _ => c
  | _ => "I processed your request, but I couldn" ++ sq ++
      "t formulate a direct answer. Please check the logs for details."

def chatAnswer (ms : List Message) : String :=
  match scanFinal (lastMessage ms) ms.reverse with
  | some a => if a = "" then chatAnswerFallback ms else a
  | none => chatAnswerFallback ms

/-- The fields of the HTTP `ChatResponse` relevant here. -/
structure ChatResponse where
  response : String
  clarifying_question : Option String

/-- The response shaping of `chat_endpoint`: a truthy clarifying question
is returned on its own with an empty `response`; otherwise the extracted
final answer is returned and `clarifying_question` is `None`. -/
def chatResponseOf (s : AgentState) : ChatResponse :=
  if truthyOptStr s.clarifying_question then
    { response := "", clarifying_question := s.clarifying_question }
  else
    { response := chatAnswer s.messages, clarifying_question := none }

/-- The initial state `chat_endpoint` builds: reconstructed history plus
the new `HumanMessage`. -/
def initialState (history : List Message) (message : String) : AgentState :=
  { messages := history ++ [Message.human message], relevant_docs := [],
    tool_calls := [], tool_output := none, clarifying_question := none }

/-! ## Concrete fixtures used by the witnesses and counterexamples -/

/-- The scenario-B payload: `{content: "Refunds take 5 days.", source: "faq.md"}`. -/
def payloadFAQ : PyVal :=
  PyVal.dict [("content", PyVal.str "Refunds take 5 days."), ("source", PyVal.str "faq.md")]

/-- A one-document index holding `payloadFAQ` (dimension 1 for the
fixture; the dimension is irrelevant to the claims). -/
def dbFAQ : VectorDBManager :=
  { index := some { d := 1, xb := [[0]] }, doc_store := [(0, payloadFAQ)] }

/-- A fixture embedding oracle. -/
def embed0 : String → List ℚ := fun _ => [0]

/-- A run state holding a single human turn. -/
def stateHi : AgentState :=
  { messages := [Message.human "hi"], relevant_docs := [], tool_calls := [],
    tool_output := none, clarifying_question := none }

/-- A calculator tool call request. -/
def tcCalc : ToolCall :=
  { name := "calculator", args := [("expression", PyVal.str "1+1")], id := "call_1" }

/-- An LLM oracle that requests a tool call at every decision step. -/
def llmAlwaysTools : Nat → List Message → Except String AIResp :=
  fun _ _ => .ok { content := "", tool_calls := [tcCalc] }

/-- A request for a tool name that is not in the registry. -/
def tcUnknown : ToolCall := { name := "nope", args := [], id := "id_1" }

/-- A state entering `TOOL_EXEC` with an unknown tool request. -/
def stateUnknownTool : AgentState :=
  { messages := [Message.human "hi", Message.ai "" [tcUnknown]], relevant_docs := [],
    tool_calls := [], tool_output := none, clarifying_question := none }

/-- An LLM oracle answering with a bare clarification marker. -/
def llmBareClarify : Nat → List Message → Except String AIResp :=
  fun _ _ => .ok { content := "CLARIFY: ", tool_calls := [] }

/-- A two-vector index with truthy payloads, for the search witness. -/
def dbTwo : VectorDBManager :=
  { index := some { d := 1, xb := [[0], [2]] },
    doc_store := [(0, PyVal.str "a"), (1, PyVal.str "b")] }

/-- An LLM oracle that always answers with plain final content. -/
def llmPlainHi : Nat → List Message → Except String AIResp :=
  fun _ _ => .ok { content := "Hi", tool_calls := [] }

/-- An LLM oracle that always asks the scenario-C clarification. -/
def llmWhichCity : Nat → List Message → Except String AIResp :=
  fun _ _ => .ok { content := "CLARIFY: Which city?", tool_calls := [] }

/-- An LLM response that requests at least one tool call (and is not a
clarification): the decision step takes the `continue` edge on it. -/
def requestsTools (r : Except String AIResp) : Prop :=
  ∃ c tcs, r = .ok { content := c, tool_calls := tcs } ∧ tcs ≠ [] ∧
    pyStartsWith c "CLARIFY: " = false

/-- An LLM call outcome on which the decision step terminates in ANSWERED:
either the call raised (the node synthesizes an error answer) or it
returned plain content with no tool calls and no clarification marker. -/
def plainOutcome (r : Except String AIResp) : Prop :=
  (∃ e, r = .error e) ∨
    ∃ c, r = .ok { content := c, tool_calls := [] } ∧ pyStartsWith c "CLARIFY: " = false

/-- The run finished in a terminal state classified ANSWERED. -/
def isAnsweredFinish : RunResult → Prop
  | RunResult.finished sf => terminalKind sf = Terminal.answered
  | RunResult.recursionError => False

/-- A Python int or float value. -/
def isNumericVal : PyVal → Bool
  | PyVal.int _ => true
  | PyVal.float _ => true
  | _ => false

end SupportAgent

namespace SupportAgent

/-! ## Shared helper lemmas -/

theorem lastMessage_append_single (ms : List Message) (m : Message) :
    lastMessage (ms ++ [m]) = m := by
  induction ms with
  | nil => rfl
  | cons a rest ih =>
    cases rest with
    | nil => rfl
    | cons b rest2 =>
      simp only [lastMessage, List.cons_append] at *
      rw [List.getLastD_cons]
      simpa using ih

theorem searchHits_append (store : DocStore) (xs ys : List (ℚ × Int)) :
    searchHits store (xs ++ ys) = searchHits store xs ++ searchHits store ys := by
  induction xs with
  | nil => rfl
  | cons p rest ih =>
    obtain ⟨dist, idx⟩ := p
    by_cases h : idx = -1
    · simp [searchHits, h, ih]
    · cases hfind : lookupPayload store idx with
      | none => simp [searchHits, h, hfind, ih]
      | some payload =>
        by_cases htr : payload.truthy
        · simp [searchHits, h, hfind, htr, ih]
        · simp [searchHits, h, hfind, htr, ih]

theorem searchHits_pad (store : DocStore) (n : Nat) :
    searchHits store (List.replicate n ((0 : ℚ), (-1 : Int))) = [] := by
  induction n with
  | zero => rfl
  | succ k ih => simp [List.replicate_succ, searchHits, ih]

theorem searchHits_empty_store (pairs : List (ℚ × Int)) :
    searchHits [] pairs = [] := by
  induction pairs with
  | nil => rfl
  | cons p rest ih =>
    obtain ⟨dist, idx⟩ := p
    by_cases h : idx = -1
    · simp [searchHits, h, ih]
    · simp [searchHits, h, lookupPayload, ih]

/-- Unfolding of one `DECIDE` step of the loop. -/
theorem decideLoop_succ (llm : Nat → List Message → Except String AIResp)
    (fuel k : Nat) (s : AgentState) :
    decideLoop llm (fuel + 1) k s =
      (if should_continue
            (applyUpdate s (generate_response_or_tool_call (llm k (llmInput s)) s)) =
          "continue" then
        match fuel with
        | 0 => RunResult.recursionError
        | fuel2 + 1 =>
          decideLoop llm fuel2 (k + 1)
            (applyUpdate
              (applyUpdate s (generate_response_or_tool_call (llm k (llmInput s)) s))
              (execute_tool
                (applyUpdate s (generate_response_or_tool_call (llm k (llmInput s)) s))))
      else
        RunResult.finished
          (applyUpdate s (generate_response_or_tool_call (llm k (llmInput s)) s))) := by
  cases fuel <;> rfl

/-- With the always-tools oracle, the decide loop never reaches a terminal
state: it consumes all fuel. -/
theorem decideLoop_llmAlwaysTools (fuel k : Nat) (s : AgentState) :
    decideLoop llmAlwaysTools fuel k s = RunResult.recursionError := by
  induction fuel using Nat.strong_induction_on generalizing k s with
  | _ fuel ih =>
    match fuel with
    | 0 => rfl
    | fuel1 + 1 =>
      have hcont : should_continue
          (applyUpdate s (generate_response_or_tool_call (llmAlwaysTools k (llmInput s)) s)) =
          "continue" := by
        show should_continue
          (applyUpdate s (generate_response_or_tool_call
            (Except.ok { content := "", tool_calls := [tcCalc] }) s)) = "continue"
        have hlast : lastMessage (s.messages ++ (s.messages ++ [Message.ai "" [tcCalc]])) =
            Message.ai "" [tcCalc] := by
          rw [← List.append_assoc]
          exact lastMessage_append_single _ _
        simp only [generate_response_or_tool_call]
        rw [if_neg (by decide)]
        simp only [should_continue, applyUpdate, truthyOptStr]
        rw [if_neg (by simp)]
        simp only [hlast]
        simp [toolCallsOf, tcCalc]
      rw [decideLoop_succ, if_pos hcont]
      match fuel1 with
      | 0 => rfl
      | fuel2 + 1 =>
        exact ih fuel2 (by omega) (k + 1) _

/-- After the decision node processes a raised LLM call, the conditional
edge reads `"end"`. -/
theorem sc_after_generate_error (e : String) (s : AgentState) :
    should_continue (applyUpdate s (generate_response_or_tool_call (Except.error e) s)) =
      "end" := by
  have hlast : lastMessage (s.messages ++ (s.messages ++
      [Message.ai ("Error: Could not get a response from the AI. " ++ e) []])) =
      Message.ai ("Error: Could not get a response from the AI. " ++ e) [] := by
    rw [← List.append_assoc]
    exact lastMessage_append_single _ _
  simp only [generate_response_or_tool_call, should_continue, applyUpdate, truthyOptStr]
  rw [if_neg (by simp)]
  simp only [hlast]
  simp [toolCallsOf]

/-- After the decision node processes a non-clarifying `AIMessage`, the
conditional edge reads `"end"` or `"continue"` according to the presence
of tool calls. -/
theorem sc_after_generate_plain (c : String) (tcs : List ToolCall) (s : AgentState)
    (hcl : pyStartsWith c "CLARIFY: " = false) :
    should_continue (applyUpdate s
        (generate_response_or_tool_call
          (Except.ok { content := c, tool_calls := tcs }) s)) =
      (if tcs.isEmpty then "end" else "continue") := by
  have hlast : lastMessage (s.messages ++ (s.messages ++ [Message.ai c tcs])) =
      Message.ai c tcs := by
    rw [← List.append_assoc]
    exact lastMessage_append_single _ _
  simp only [generate_response_or_tool_call]
  rw [if_neg (by simp [hcl])]
  simp only [should_continue, applyUpdate, truthyOptStr]
  rw [if_neg (by simp)]
  simp only [hlast]
  simp [toolCallsOf]

/-- The state after a raised or plain (no tool call, no clarification)
decision step carries no clarifying question, so it is classified
ANSWERED. -/
theorem kind_after_generate (r : Except String AIResp) (s : AgentState)
    (h : (∃ e, r = Except.error e) ∨
      ∃ c tcs, r = Except.ok { content := c, tool_calls := tcs } ∧
        pyStartsWith c "CLARIFY: " = false) :
    terminalKind (applyUpdate s (generate_response_or_tool_call r s)) =
      Terminal.answered := by
  rcases h with ⟨e, rfl⟩ | ⟨c, tcs, rfl, hcl⟩
  · simp [generate_response_or_tool_call, applyUpdate, terminalKind, truthyOptStr]
  · simp [generate_response_or_tool_call, hcl, applyUpdate, terminalKind, truthyOptStr]

/-- A decision step whose LLM call has a plain outcome terminates the run
in ANSWERED (whatever fuel remains). -/
theorem decideLoop_plain_answers (llm : Nat → List Message → Except String AIResp)
    (k fuel : Nat) (s : AgentState) (h : plainOutcome (llm k (llmInput s))) :
    isAnsweredFinish (decideLoop llm (fuel + 1) k s) := by
  rw [decideLoop_succ]
  rcases h with ⟨e, he⟩ | ⟨c, hok, hcl⟩
  · rw [he, if_neg (by rw [sc_after_generate_error]; decide)]
    show terminalKind (applyUpdate s (generate_response_or_tool_call (Except.error e) s)) =
      Terminal.answered
    exact kind_after_generate _ s (Or.inl ⟨e, rfl⟩)
  · rw [hok, if_neg (by rw [sc_after_generate_plain c [] s hcl]; decide)]
    show terminalKind (applyUpdate s
      (generate_response_or_tool_call (Except.ok { content := c, tool_calls := [] }) s)) =
      Terminal.answered
    exact kind_after_generate _ s (Or.inr ⟨c, [], rfl, hcl⟩)

/-- If the model requests tool calls at the first `N` decision steps and
the call after them has a plain outcome, the loop terminates in ANSWERED
given fuel for those cycles.  (The fuel bound `2N + 1` counts one node per
decision step and one per tool step.) -/
theorem decideLoop_terminates (llm : Nat → List Message → Except String AIResp) :
    ∀ (N k fuel : Nat) (s : AgentState),
    (∀ j, j < N → ∀ ms, requestsTools (llm (k + j) ms)) →
    (∀ ms, plainOutcome (llm (k + N) ms)) →
    2 * N + 1 ≤ fuel →
    isAnsweredFinish (decideLoop llm fuel k s) := by
  intro N
  induction N with
  | zero =>
    intro k fuel s _ hfinal hfuel
    obtain ⟨f, rfl⟩ : ∃ f, fuel = f + 1 := ⟨fuel - 1, by omega⟩
    exact decideLoop_plain_answers llm k f s (by simpa using hfinal (llmInput s))
  | succ N ih =>
    intro k fuel s htools hfinal hfuel
    obtain ⟨f2, rfl⟩ : ∃ f2, fuel = f2 + 2 := ⟨fuel - 2, by omega⟩
    obtain ⟨c, tcs, hok, htcs, hcl⟩ := htools 0 (by omega) (llmInput s)
    rw [show k + 0 = k by omega] at hok
    rw [decideLoop_succ, hok,
      if_pos (by rw [sc_after_generate_plain c tcs s hcl]; simp [htcs])]
    show isAnsweredFinish (decideLoop llm f2 (k + 1) _)
    refine ih (k + 1) f2 _ (fun j hj ms => ?_) (fun ms => ?_) (by omega)
    · have := htools (j + 1) (by omega) ms
      rwa [show k + (j + 1) = k + 1 + j by omega] at this
    · have := hfinal ms
      rwa [show k + (N + 1) = k + 1 + N by omega] at this

theorem pyNeg_numeric (a : PyVal) (ha : isNumericVal a = true) (v : PyVal)
    (h : pyNeg a = Except.ok v) : isNumericVal v = true := by
  cases a <;> simp [isNumericVal] at ha <;> simp [pyNeg] at h <;> subst h <;> rfl

theorem pyAdd_numeric (a b : PyVal) (ha : isNumericVal a = true)
    (hb : isNumericVal b = true) (v : PyVal)
    (h : pyAdd a b = Except.ok v) : isNumericVal v = true := by
  cases a <;> simp [isNumericVal] at ha <;> cases b <;> simp [isNumericVal] at hb <;>
    simp [pyAdd] at h <;> subst h <;> rfl

theorem pySub_numeric (a b : PyVal) (ha : isNumericVal a = true)
    (hb : isNumericVal b = true) (v : PyVal)
    (h : pySub a b = Except.ok v) : isNumericVal v = true := by
  cases a <;> simp [isNumericVal] at ha <;> cases b <;> simp [isNumericVal] at hb <;>
    simp [pySub] at h <;> subst h <;> rfl

theorem pyMul_numeric (a b : PyVal) (ha : isNumericVal a = true)
    (hb : isNumericVal b = true) (v : PyVal)
    (h : pyMul a b = Except.ok v) : isNumericVal v = true := by
  cases a <;> simp [isNumericVal] at ha <;> cases b <;> simp [isNumericVal] at hb <;>
    simp [pyMul] at h <;> subst h <;> rfl

theorem pyDiv_numeric (a b : PyVal) (ha : isNumericVal a = true)
    (hb : isNumericVal b = true) (v : PyVal)
    (h : pyDiv a b = Except.ok v) : isNumericVal v = true := by
  cases a <;> simp [isNumericVal] at ha <;> cases b <;> simp [isNumericVal] at hb <;>
    simp [pyDiv] at h <;> split at h <;> simp at h <;> subst h <;> rfl

/-- Evaluating a name-free (purely arithmetic) expression never produces a
non-numeric value: `eval` is only dangerous through identifiers. -/
theorem nameFree_numeric : ∀ e : PyExpr, nameFree e = true →
    ∀ v : PyVal, pyEvalAst e = Except.ok v → isNumericVal v = true := by
  intro e
  induction e with
  | num n =>
    intro _ v hv
    simp only [pyEvalAst, Except.ok.injEq] at hv
    subst hv
    rfl
  | name s =>
    intro he _ _
    simp [nameFree] at he
  | neg e ih =>
    intro he v hv
    simp only [nameFree] at he
    simp only [pyEvalAst] at hv
    cases h1 : pyEvalAst e with
    | error err => rw [h1] at hv; exact absurd hv (by simp)
    | ok w =>
      rw [h1] at hv
      exact pyNeg_numeric w (ih he w h1) v hv
  | add a b iha ihb =>
    intro he v hv
    simp only [nameFree, Bool.and_eq_true] at he
    simp only [pyEvalAst] at hv
    cases h1 : pyEvalAst a with
    | error err => rw [h1] at hv; exact absurd hv (by simp)
    | ok w1 =>
      cases h2 : pyEvalAst b with
      | error err => rw [h1, h2] at hv; exact absurd hv (by simp)
      | ok w2 =>
        rw [h1, h2] at hv
        exact pyAdd_numeric w1 w2 (iha he.1 w1 h1) (ihb he.2 w2 h2) v hv
  | sub a b iha ihb =>
    intro he v hv
    simp only [nameFree, Bool.and_eq_true] at he
    simp only [pyEvalAst] at hv
    cases h1 : pyEvalAst a with
    | error err => rw [h1] at hv; exact absurd hv (by simp)
    | ok w1 =>
      cases h2 : pyEvalAst b with
      | error err => rw [h1, h2] at hv; exact absurd hv (by simp)
      | ok w2 =>
        rw [h1, h2] at hv
        exact pySub_numeric w1 w2 (iha he.1 w1 h1) (ihb he.2 w2 h2) v hv
  | mul a b iha ihb =>
    intro he v hv
    simp only [nameFree, Bool.and_eq_true] at he
    simp only [pyEvalAst] at hv
    cases h1 : pyEvalAst a with
    | error err => rw [h1] at hv; exact absurd hv (by simp)
    | ok w1 =>
      cases h2 : pyEvalAst b with
      | error err => rw [h1, h2] at hv; exact absurd hv (by simp)
      | ok w2 =>
        rw [h1, h2] at hv
        exact pyMul_numeric w1 w2 (iha he.1 w1 h1) (ihb he.2 w2 h2) v hv
  | div a b iha ihb =>
    intro he v hv
    simp only [nameFree, Bool.and_eq_true] at he
    simp only [pyEvalAst] at hv
    cases h1 : pyEvalAst a with
    | error err => rw [h1] at hv; exact absurd hv (by simp)
    | ok w1 =>
      cases h2 : pyEvalAst b with
      | error err => rw [h1, h2] at hv; exact absurd hv (by simp)
      | ok w2 =>
        rw [h1, h2] at hv
        exact pyDiv_numeric w1 w2 (iha he.1 w1 h1) (ihb he.2 w2 h2) v hv

/-! ### Lemmas for the search specification (C6) -/

theorem lookup_of_coKeys (m : VectorDBManager) (idx : FaissIndexFlatL2)
    (hkeys : coKeys m idx) (htr : truthyStore m) (i : Nat) (hi : i < idx.ntotal) :
    ∃ pl, lookupPayload m.doc_store (Int.ofNat i) = some pl ∧ pl.truthy = true := by
  have hmem : Int.ofNat i ∈ m.doc_store.map Prod.fst := by
    rw [hkeys]
    exact List.mem_map.2 ⟨i, List.mem_range.2 hi, rfl⟩
  cases hfind : m.doc_store.find? (fun p => p.1 == Int.ofNat i) with
  | none =>
    obtain ⟨p, hp, hp1⟩ := List.mem_map.1 hmem
    have := List.find?_eq_none.1 hfind p hp
    simp [hp1] at this
  | some p =>
    refine ⟨p.2, ?_, ?_⟩
    · unfold lookupPayload
      rw [hfind]
      rfl
    · exact htr p (List.mem_of_find?_eq_some hfind)

theorem mem_faissScores_lt (idx : FaissIndexFlatL2) (q : List ℚ) (p : ℚ × Nat)
    (hp : p ∈ faissScores idx q) : p.2 < idx.ntotal := by
  obtain ⟨a, ha, rfl⟩ := List.mem_map.1 hp
  rw [List.enum_eq_zip_range] at ha
  obtain ⟨a1, a2⟩ := a
  have := (List.of_mem_zip ha).1
  exact List.mem_range.1 this

theorem mem_faissTop_lt (idx : FaissIndexFlatL2) (q : List ℚ) (k : Nat) (p : ℚ × Nat)
    (hp : p ∈ faissTop idx q k) : p.2 < idx.ntotal := by
  have h1 : p ∈ List.insertionSort scoreIdLe (faissScores idx q) :=
    (List.take_sublist k _).subset hp
  have h2 : p ∈ faissScores idx q := (List.perm_insertionSort scoreIdLe _).mem_iff.1 h1
  exact mem_faissScores_lt idx q p h2

theorem searchHits_of_present (store : DocStore) :
    ∀ l : List (ℚ × Nat),
    (∀ p ∈ l, ∃ pl, lookupPayload store ((p.2 : Nat) : Int) = some pl ∧ pl.truthy = true) →
    searchHits store (l.map fun p => (p.1, (p.2 : Int))) =
      l.map fun p =>
        PyVal.dict [("payload", payloadAt store p.2), ("score", PyVal.float p.1)] := by
  intro l
  induction l with
  | nil => intro _; rfl
  | cons p rest ih =>
    intro h
    obtain ⟨pl, hpl, htr⟩ := h p (List.mem_cons_self p rest)
    obtain ⟨d, i⟩ := p
    have hne : ((i : Nat) : Int) ≠ -1 := by omega
    simp only [List.map_cons, searchHits, if_neg hne, hpl, htr, if_pos]
    rw [ih (fun p hp => h p (List.mem_cons_of_mem _ hp))]
    simp [payloadAt, hpl]

theorem faissTop_length (idx : FaissIndexFlatL2) (q : List ℚ) (k : Nat) :
    (faissTop idx q k).length = min k idx.ntotal := by
  have hperm := (List.perm_insertionSort scoreIdLe (faissScores idx q)).length_eq
  have hscores : (faissScores idx q).length = idx.ntotal := by
    simp [faissScores, FaissIndexFlatL2.ntotal]
  simp [faissTop, List.length_take, hperm, hscores]

theorem faissTop_sorted (idx : FaissIndexFlatL2) (q : List ℚ) (k : Nat) :
    List.Sorted (· ≤ ·) ((faissTop idx q k).map Prod.fst) := by
  have hs : List.Sorted scoreIdLe (List.insertionSort scoreIdLe (faissScores idx q)) :=
    List.sorted_insertionSort scoreIdLe _
  have htake : List.Sorted scoreIdLe (faissTop idx q k) :=
    List.Pairwise.sublist (List.take_sublist k _) hs
  exact htake.map _ (fun a b hab => by
    rcases hab with h | ⟨h, _⟩
    · exact le_of_lt h
    · exact le_of_eq h)

theorem faissTop_nodup_ids (idx : FaissIndexFlatL2) (q : List ℚ) (k : Nat) :
    ((faissTop idx q k).map Prod.snd).Nodup := by
  have hperm : (List.insertionSort scoreIdLe (faissScores idx q)).map Prod.snd |>.Perm
      ((faissScores idx q).map Prod.snd) :=
    (List.perm_insertionSort scoreIdLe _).map Prod.snd
  have hscores : (faissScores idx q).map Prod.snd = List.range idx.ntotal := by
    simp only [faissScores, List.map_map]
    exact List.enum_map_fst idx.xb
  have hnodup : ((List.insertionSort scoreIdLe (faissScores idx q)).map Prod.snd).Nodup := by
    rw [hperm.nodup_iff, hscores]
    exact List.nodup_range idx.ntotal
  rw [faissTop, List.map_take]
  exact hnodup.sublist (List.take_sublist k _)

/-! ### Lemmas for the upsert invariant (C7) -/

theorem find?_eq_none_of_not_mem_keys (store : DocStore) (k : Int)
    (h : k ∉ store.map Prod.fst) :
    store.find? (fun p => p.1 == k) = none := by
  apply List.find?_eq_none.2
  intro p hp
  simp only [beq_iff_eq]
  intro hk
  exact h (List.mem_map.2 ⟨p, hp, hk⟩)

theorem dictSet_fresh (store : DocStore) (k : Int) (v : PyVal)
    (h : k ∉ store.map Prod.fst) :
    dictSet store k v = store ++ [(k, v)] := by
  rw [dictSet, find?_eq_none_of_not_mem_keys store k h]
  rfl

theorem lookup_append_of_some (store rest : DocStore) (k : Int) (pl : PyVal)
    (h : lookupPayload store k = some pl) :
    lookupPayload (store ++ rest) k = some pl := by
  unfold lookupPayload at h ⊢
  cases hfind : store.find? (fun p => p.1 == k) with
  | none => rw [hfind] at h; exact absurd h (by simp)
  | some p =>
    rw [hfind] at h
    simp [List.find?_append, hfind, h]

theorem lookup_append_new (store : DocStore) (k : Int) (v : PyVal)
    (h : k ∉ store.map Prod.fst) :
    lookupPayload (store ++ [(k, v)]) k = some v := by
  simp [lookupPayload, List.find?_append, find?_eq_none_of_not_mem_keys store k h,
    List.find?]

theorem rangeInt_not_mem (store : DocStore) (n : Nat)
    (h : store.map Prod.fst = (List.range n).map Int.ofNat) :
    Int.ofNat n ∉ store.map Prod.fst := by
  rw [h]
  intro hmem
  obtain ⟨j, hj, hjeq⟩ := List.mem_map.1 hmem
  have hj2 : j < n := List.mem_range.1 hj
  have : j = n := Int.ofNat.inj hjeq
  omega

theorem rangeInt_append (n : Nat) :
    (List.range n).map Int.ofNat ++ [Int.ofNat n] =
      (List.range (n + 1)).map Int.ofNat := by
  rw [List.range_succ, List.map_append]
  rfl

/-- One unfolding step of the store loop, with the key rewritten to its
closed form on a co-indexed store. -/
theorem storePayloads_cons_step (ct : Int) (count : Nat) (p : PyVal) (rest : List PyVal)
    (i : Nat) (store : DocStore) (base : Nat)
    (hbase : ct - (count : Int) = (base : Int))
    (hkeys : store.map Prod.fst = (List.range (base + i)).map Int.ofNat) :
    storePayloads ct count i store (p :: rest) =
      storePayloads ct count (i + 1)
        (store ++ [(((base + i : Nat) : Int), p)]) rest := by
  have hkey : ct - (count : Int) + (i : Int) = ((base + i : Nat) : Int) := by
    rw [hbase]
    push_cast
    ring
  have hfresh : ((base + i : Nat) : Int) ∉ store.map Prod.fst :=
    rangeInt_not_mem store (base + i) hkeys
  show storePayloads ct count (i + 1) (dictSet store (ct - (count : Int) + (i : Int)) p) rest =
    storePayloads ct count (i + 1) (store ++ [(((base + i : Nat) : Int), p)]) rest
  rw [hkey, dictSet_fresh store _ p hfresh]

/-- Keys already present keep their payloads through the store loop (the
loop only appends fresh keys). -/
theorem storePayloads_preserves (ct : Int) (count : Nat) :
    ∀ (ps : List PyVal) (i : Nat) (store : DocStore) (base : Nat),
    ct - (count : Int) = (base : Int) →
    store.map Prod.fst = (List.range (base + i)).map Int.ofNat →
    ∀ (K : Int) (pl : PyVal), lookupPayload store K = some pl →
    lookupPayload (storePayloads ct count i store ps) K = some pl := by
  intro ps
  induction ps with
  | nil =>
    intro i store base _ _ K pl h
    exact h
  | cons p rest ih =>
    intro i store base hbase hkeys K pl h
    rw [storePayloads_cons_step ct count p rest i store base hbase hkeys]
    have hkeys2 : (store ++ [(((base + i : Nat) : Int), p)]).map Prod.fst =
        (List.range (base + (i + 1))).map Int.ofNat := by
      rw [List.map_append, hkeys]
      exact rangeInt_append (base + i)
    exact ih (i + 1) _ base hbase hkeys2 K pl
      (lookup_append_of_some store _ K pl h)

/-- The enumerate-and-store loop of `upsert_vectors`, on a store whose
keys are exactly `0 .. base + i - 1`: it appends the fresh keys
`base + i .. base + i + len - 1` in order, each bound to its payload. -/
theorem storePayloads_spec (ct : Int) (count : Nat) :
    ∀ (ps : List PyVal) (i : Nat) (store : DocStore) (base : Nat),
    ct - (count : Int) = (base : Int) →
    store.map Prod.fst = (List.range (base + i)).map Int.ofNat →
    (storePayloads ct count i store ps).map Prod.fst =
      (List.range (base + i + ps.length)).map Int.ofNat ∧
    (∀ j, j < ps.length →
      lookupPayload (storePayloads ct count i store ps) ((base + i + j : Nat) : Int) =
        ps[j]?) := by
  intro ps
  induction ps with
  | nil =>
    intro i store base hbase hkeys
    exact ⟨by simpa using hkeys, fun j hj => absurd hj (Nat.not_lt_zero j)⟩
  | cons p rest ih =>
    intro i store base hbase hkeys
    have hfresh : ((base + i : Nat) : Int) ∉ store.map Prod.fst :=
      rangeInt_not_mem store (base + i) hkeys
    have hkeys2 : (store ++ [(((base + i : Nat) : Int), p)]).map Prod.fst =
        (List.range (base + (i + 1))).map Int.ofNat := by
      rw [List.map_append, hkeys]
      exact rangeInt_append (base + i)
    obtain ⟨ka, kb⟩ := ih (i + 1) (store ++ [(((base + i : Nat) : Int), p)]) base hbase hkeys2
    rw [storePayloads_cons_step ct count p rest i store base hbase hkeys]
    constructor
    · rw [ka, show base + (i + 1) + rest.length = base + i + (p :: rest).length from by
        simp; omega]
    · intro j hj
      match j with
      | 0 =>
        rw [show ((base + i + 0 : Nat) : Int) = ((base + i : Nat) : Int) from by push_cast; ring]
        have hlook : lookupPayload (store ++ [(((base + i : Nat) : Int), p)])
            ((base + i : Nat) : Int) = some p :=
          lookup_append_new store _ p hfresh
        rw [storePayloads_preserves ct count rest (i + 1) _ base hbase hkeys2 _ p hlook]
        simp
      | j2 + 1 =>
        have := kb j2 (by simpa using hj)
        rw [show (base + i + (j2 + 1) : Nat) = base + (i + 1) + j2 from by omega]
        rw [this]
        simp


/-! ## Claim theorems -/

/-- C6.  On an initialized index satisfying the co-indexing invariant
(with truthy payloads) and a query of the index dimension, `search_vectors`
returns exactly the `min k ntotal` best hits (each wrapped as
a payload/score dict for the stored payload of the internal id of each hit,
internal id), the hit distances are non-decreasing (best first, squared
L2), the internal ids contain no duplicate, and a zero-vector index yields
the empty result list. -/
theorem c6_search_spec (m : VectorDBManager) (idx : FaissIndexFlatL2) (q : List ℚ) (k : Nat)
    (hidx : m.index = some idx) (hkeys : coKeys m idx) (htr : truthyStore m)
    (hq : q.length = idx.d) :
    search_vectors m q k =
      Except.ok ((faissTop idx q k).map fun p =>
        PyVal.dict [("payload", payloadAt m.doc_store p.2), ("score", PyVal.float p.1)]) ∧
    (faissTop idx q k).length = min k idx.ntotal ∧
    List.Sorted (· ≤ ·) ((faissTop idx q k).map Prod.fst) ∧
    ((faissTop idx q k).map Prod.snd).Nodup ∧
    (idx.ntotal = 0 → search_vectors m q k = Except.ok []) := by
  have htop : ∀ p ∈ faissTop idx q k,
      ∃ pl, lookupPayload m.doc_store ((p.2 : Nat) : Int) = some pl ∧ pl.truthy = true :=
    fun p hp => lookup_of_coKeys m idx hkeys htr p.2 (mem_faissTop_lt idx q k p hp)
  have hmain : search_vectors m q k =
      Except.ok ((faissTop idx q k).map fun p =>
        PyVal.dict [("payload", payloadAt m.doc_store p.2), ("score", PyVal.float p.1)]) := by
    simp only [search_vectors, hidx, faissSearch, hq, if_pos]
    rw [searchHits_append, searchHits_pad, searchHits_of_present m.doc_store _ htop,
      List.append_nil]
  refine ⟨hmain, faissTop_length idx q k, faissTop_sorted idx q k,
    faissTop_nodup_ids idx q k, fun h0 => ?_⟩
  have hlen0 : (faissTop idx q k).length = 0 := by
    rw [faissTop_length, h0]
    omega
  rw [hmain, List.length_eq_zero.1 hlen0]
  rfl

/-- C6 witness: the search specification on the two-vector fixture
index. -/
theorem c6_search_spec_witness :
    search_vectors dbTwo [1] 5 =
      Except.ok ((faissTop { d := 1, xb := [[0], [2]] } [1] 5).map fun p =>
        PyVal.dict [("payload", payloadAt dbTwo.doc_store p.2),
          ("score", PyVal.float p.1)]) ∧
    (faissTop { d := 1, xb := [[0], [2]] } [1] 5).length =
      min 5 (FaissIndexFlatL2.ntotal { d := 1, xb := [[0], [2]] }) ∧
    List.Sorted (· ≤ ·)
      ((faissTop { d := 1, xb := [[0], [2]] } [1] 5).map Prod.fst) ∧
    ((faissTop { d := 1, xb := [[0], [2]] } [1] 5).map Prod.snd).Nodup ∧
    (FaissIndexFlatL2.ntotal { d := 1, xb := [[0], [2]] } = 0 →
      search_vectors dbTwo [1] 5 = Except.ok []) :=
  c6_search_spec dbTwo { d := 1, xb := [[0], [2]] } [1] 5 rfl
    (by unfold coKeys; with_unfolding_all rfl)
    (by unfold truthyStore; decide) rfl

/-- C7.  `upsert_vectors` preserves the co-indexing invariant for every
call with equally long vector and payload lists (of the index dimension):
on a non-empty batch the call succeeds, each new vector is appended (its
internal id is its position, continuing the old sequence), each payload is
stored under the id `old_total + i` of its vector, the key set is again
exactly `0 .. new_total - 1`, and the store size equals the vector count;
on an empty batch the call raises before mutating anything (see C8), so
the state — and with it the invariant — is unchanged. -/
theorem c7_upsert_invariant (m : VectorDBManager) (idx : FaissIndexFlatL2)
    (ids : List String) (vectors : List (List ℚ)) (payloads : List PyVal)
    (hidx : m.index = some idx) (hkeys : coKeys m idx)
    (hlen : vectors.length = payloads.length)
    (hdim : ∀ v ∈ vectors, v.length = idx.d) :
    (vectors = [] →
      upsert_vectors m ids vectors payloads =
        Except.error "ValueError: not enough values to unpack (expected 2, got 1)" ∧
      upsertResult m ids vectors payloads = m) ∧
    (vectors ≠ [] →
      upsert_vectors m ids vectors payloads =
        Except.ok (upsertResult m ids vectors payloads) ∧
      (upsertResult m ids vectors payloads).index =
        some { d := idx.d, xb := idx.xb ++ vectors } ∧
      coKeys (upsertResult m ids vectors payloads) { d := idx.d, xb := idx.xb ++ vectors } ∧
      (upsertResult m ids vectors payloads).doc_store.length =
        idx.ntotal + vectors.length ∧
      (∀ j, j < payloads.length →
        lookupPayload (upsertResult m ids vectors payloads).doc_store
          (Int.ofNat (idx.ntotal + j)) = payloads[j]?)) := by
  constructor
  · intro h0
    subst h0
    constructor
    · simp [upsert_vectors, hidx, faissAdd, npShape]
    · simp [upsertResult, upsert_vectors, hidx, faissAdd, npShape]
  · intro hne
    match vectors, hne, hlen, hdim with
    | v0 :: vtl, _, hlen, hdim =>
      have hd0 : v0.length = idx.d := hdim v0 (List.mem_cons_self v0 vtl)
      have hadd : faissAdd idx (v0 :: vtl) =
          Except.ok { d := idx.d, xb := idx.xb ++ (v0 :: vtl) } := by
        simp [faissAdd, npShape, hd0]
      have hnt : FaissIndexFlatL2.ntotal { d := idx.d, xb := idx.xb ++ (v0 :: vtl) } =
          idx.ntotal + payloads.length := by
        simp only [FaissIndexFlatL2.ntotal, List.length_append]
        rw [← hlen]
      have hup : upsert_vectors m ids (v0 :: vtl) payloads =
          Except.ok
            { index := some { d := idx.d, xb := idx.xb ++ (v0 :: vtl) },
              doc_store := storePayloads
                ((FaissIndexFlatL2.ntotal { d := idx.d, xb := idx.xb ++ (v0 :: vtl) } : Nat) : Int)
                payloads.length 0 m.doc_store payloads } := by
        simp [upsert_vectors, hidx, hadd]
      have hbase :
          ((FaissIndexFlatL2.ntotal { d := idx.d, xb := idx.xb ++ (v0 :: vtl) } : Nat) : Int) -
            (payloads.length : Int) = ((idx.ntotal : Nat) : Int) := by
        rw [hnt]
        push_cast
        ring
      have hkeys0 : m.doc_store.map Prod.fst =
          (List.range (idx.ntotal + 0)).map Int.ofNat := by
        rw [Nat.add_zero]
        exact hkeys
      obtain ⟨ka, kb⟩ := storePayloads_spec
        ((FaissIndexFlatL2.ntotal { d := idx.d, xb := idx.xb ++ (v0 :: vtl) } : Nat) : Int)
        payloads.length payloads 0 m.doc_store idx.ntotal hbase hkeys0
      have hres : upsertResult m ids (v0 :: vtl) payloads =
          { index := some { d := idx.d, xb := idx.xb ++ (v0 :: vtl) },
            doc_store := storePayloads
              ((FaissIndexFlatL2.ntotal { d := idx.d, xb := idx.xb ++ (v0 :: vtl) } : Nat) : Int)
              payloads.length 0 m.doc_store payloads } := by
        rw [upsertResult, hup]
      refine ⟨by rw [hup, hres], by rw [hres], ?_, ?_, ?_⟩
      · show (upsertResult m ids (v0 :: vtl) payloads).doc_store.map Prod.fst =
          (List.range (FaissIndexFlatL2.ntotal { d := idx.d, xb := idx.xb ++ (v0 :: vtl) })).map
            Int.ofNat
        rw [hres]
        show (storePayloads _ _ 0 m.doc_store payloads).map Prod.fst = _
        rw [ka, hnt]
        rw [show idx.ntotal + 0 + payloads.length = idx.ntotal + payloads.length from by omega]
      · rw [hres]
        show (storePayloads _ _ 0 m.doc_store payloads).length = _
        have hlenmap := congrArg List.length ka
        rw [List.length_map, List.length_map, List.length_range] at hlenmap
        rw [hlenmap, ← hlen]
        omega
      · intro j hj
        have hkb := kb j hj
        rw [hres]
        show lookupPayload (storePayloads _ _ 0 m.doc_store payloads) _ = _
        rw [show idx.ntotal + j = idx.ntotal + 0 + j from by omega]
        exact hkb

/-- C7 witness: upserting one vector with one payload onto the two-vector
fixture index. -/
theorem c7_upsert_invariant_witness :
    (([[(5 : ℚ)]] : List (List ℚ)) = [] →
      upsert_vectors dbTwo ["x"] [[(5 : ℚ)]] [PyVal.str "c"] =
        Except.error "ValueError: not enough values to unpack (expected 2, got 1)" ∧
      upsertResult dbTwo ["x"] [[(5 : ℚ)]] [PyVal.str "c"] = dbTwo) ∧
    (([[(5 : ℚ)]] : List (List ℚ)) ≠ [] →
      upsert_vectors dbTwo ["x"] [[(5 : ℚ)]] [PyVal.str "c"] =
        Except.ok (upsertResult dbTwo ["x"] [[(5 : ℚ)]] [PyVal.str "c"]) ∧
      (upsertResult dbTwo ["x"] [[(5 : ℚ)]] [PyVal.str "c"]).index =
        some { d := 1, xb := [[0], [2]] ++ [[(5 : ℚ)]] } ∧
      coKeys (upsertResult dbTwo ["x"] [[(5 : ℚ)]] [PyVal.str "c"])
        { d := 1, xb := [[0], [2]] ++ [[(5 : ℚ)]] } ∧
      (upsertResult dbTwo ["x"] [[(5 : ℚ)]] [PyVal.str "c"]).doc_store.length =
        FaissIndexFlatL2.ntotal { d := 1, xb := [[(0 : ℚ)], [2]] } + 1 ∧
      (∀ j, j < 1 →
        lookupPayload (upsertResult dbTwo ["x"] [[(5 : ℚ)]] [PyVal.str "c"]).doc_store
          (Int.ofNat (FaissIndexFlatL2.ntotal { d := 1, xb := [[(0 : ℚ)], [2]] } + j)) =
            ([PyVal.str "c"] : List PyVal)[j]?)) := by
  have hlen1 : ([[(5 : ℚ)]] : List (List ℚ)).length = ([PyVal.str "c"] : List PyVal).length := rfl
  exact c7_upsert_invariant dbTwo { d := 1, xb := [[0], [2]] } ["x"]
    [[(5 : ℚ)]] [PyVal.str "c"] rfl (by unfold coKeys; with_unfolding_all rfl) hlen1
    (fun v hv => by
      rw [List.mem_singleton] at hv
      subst hv
      rfl)

/-- C1.  With an index holding exactly the scenario-B document
`{content: "Refunds take 5 days.", source: "faq.md"}` and a transcript
containing the human turn, the RETRIEVE step does embed the human turn and
receives that document as top-1, but the `RetrievedDocument` it builds
carries `content = ""` and `source = "unknown"` — not the stored payload
fields — because `retrieve_documents` reads `res.get("content")` /
`res.get("source")` on the payload/score wrapper dict instead of
on the payload entry itself.  Consequently the context block of the decision step does
not include "5 days". -/
theorem c1_retrieval_loses_payload_content :
    (retrieve_documents embed0 dbFAQ (initialState [] "How long do refunds take?")).relevant_docs =
      [{ page_content := "", source := "unknown", score := 0 }] ∧
    pyDictGet payloadFAQ "content" (PyVal.str "") = PyVal.str "Refunds take 5 days." ∧
    buildContext
        (retrieve_documents embed0 dbFAQ
          (initialState [] "How long do refunds take?")).relevant_docs =
      "\n\nRelevant Context:\n--- Document 1 ---\n\n\n" ∧
    pyContainsSub
        (buildContext
          (retrieve_documents embed0 dbFAQ
            (initialState [] "How long do refunds take?")).relevant_docs)
      "5 days" = false := by
  refine ⟨?_, rfl, ?_, ?_⟩ <;> with_unfolding_all rfl

/-- C2 counterexample.  A save/load round trip does not reproduce search
results: on a one-document index, `search_vectors` returns the wrapped
document before the round trip, but after `save_index` followed by
`load_or_create_index` on a fresh manager (exactly the service-startup
path) the same query returns `[]`, because `save_index` persists only the
FAISS vectors and the payload map is lost. -/
theorem c2_roundtrip_loses_payloads :
    search_vectors dbFAQ [0] 5 =
      .ok [PyVal.dict [("payload", payloadFAQ), ("score", PyVal.float 0)]] ∧
    search_vectors (load_or_create_index freshManager (save_index dbFAQ none) 384) [0] 5 =
      .ok [] ∧
    ([PyVal.dict [("payload", payloadFAQ), ("score", PyVal.float 0)]] : List PyVal) ≠ [] := by
  refine ⟨?_, ?_, by simp⟩ <;> with_unfolding_all rfl

/-- C3 counterexample.  The code imposes no cap on `TOOL_EXEC → DECIDE`
cycles and produces no fallback message: with a language model that
requests a tool call at every decision step, the run never reaches
`ANSWERED` or `CLARIFYING`; at the LangGraph default recursion limit of 25
executed nodes the graph raises `GraphRecursionError`. -/
theorem c3_always_tools_never_terminates :
    agentRun embed0 freshManager llmAlwaysTools 25 stateHi = RunResult.recursionError := by
  show decideLoop llmAlwaysTools 24 0
    (applyUpdate stateHi (retrieve_documents embed0 freshManager stateHi)) =
    RunResult.recursionError
  exact decideLoop_llmAlwaysTools 24 0 _

/-- C2 amended.  `save_index` persists only the FAISS vectors, and
`load_or_create_index` restores them exactly — so the loaded index is
bit-for-bit the saved one — but the payload map is not persisted: after a
round trip into a fresh manager (the service-startup path) the doc store
is empty and `search_vectors` returns no results for any query of the
index dimension. -/
theorem c2_amended_roundtrip (m : VectorDBManager) (idx : FaissIndexFlatL2)
    (disk : Disk) (vs : Nat) (h : m.index = some idx) :
    (load_or_create_index freshManager (save_index m disk) vs).index = some idx ∧
    (load_or_create_index freshManager (save_index m disk) vs).doc_store = [] ∧
    ∀ (q : List ℚ) (k : Nat), q.length = idx.d →
      search_vectors (load_or_create_index freshManager (save_index m disk) vs) q k =
        Except.ok [] := by
  have hdisk : save_index m disk = some idx := by
    simp [save_index, h]
  refine ⟨by simp [load_or_create_index, hdisk, freshManager],
    by simp [load_or_create_index, hdisk, freshManager], fun q k hq => ?_⟩
  simp only [load_or_create_index, hdisk, freshManager]
  simp only [search_vectors, faissSearch, hq, if_pos]
  rw [searchHits_empty_store]

/-- C2 witness: the amended round-trip statement at the one-document
fixture index. -/
theorem c2_amended_roundtrip_witness :
    (load_or_create_index freshManager (save_index dbFAQ none) 384).index =
      some { d := 1, xb := [[0]] } ∧
    (load_or_create_index freshManager (save_index dbFAQ none) 384).doc_store = [] ∧
    ∀ (q : List ℚ) (k : Nat), q.length = 1 →
      search_vectors (load_or_create_index freshManager (save_index dbFAQ none) 384) q k =
        Except.ok [] :=
  c2_amended_roundtrip dbFAQ { d := 1, xb := [[0]] } none 384 rfl

/-- C3 amended.  Termination is conditional, with no cap and no fallback
message in the code: whenever the model requests tool calls at each of the
first `N` decision steps and the call after them yields a plain outcome (a
final answer without tool calls and without the clarification marker, or a
raised call), the run reaches the terminal ANSWERED state, provided the
recursion limit admits the `N` tool cycles; a model that requests tools at
every decision step instead exhausts the recursion limit (see the
counterexample theorem). -/
theorem c3_amended_conditional_termination (embed : String → List ℚ)
    (db : VectorDBManager) (llm : Nat → List Message → Except String AIResp)
    (N limit : Nat) (s0 : AgentState)
    (htools : ∀ j, j < N → ∀ ms, requestsTools (llm j ms))
    (hfinal : ∀ ms, plainOutcome (llm N ms))
    (hlim : 2 * N + 2 ≤ limit) :
    isAnsweredFinish (agentRun embed db llm limit s0) := by
  obtain ⟨l, rfl⟩ : ∃ l, limit = l + 1 := ⟨limit - 1, by omega⟩
  show isAnsweredFinish (decideLoop llm l 0 (applyUpdate s0 (retrieve_documents embed db s0)))
  exact decideLoop_terminates llm N 0 l _ (by simpa using htools) (by simpa using hfinal)
    (by omega)

/-- C3 witness: a run whose single decision step answers plainly
terminates in ANSWERED. -/
theorem c3_amended_conditional_termination_witness :
    isAnsweredFinish (agentRun embed0 freshManager llmPlainHi 2 stateHi) :=
  c3_amended_conditional_termination embed0 freshManager llmPlainHi 0 2 stateHi
    (fun j hj _ => absurd hj (Nat.not_lt_zero j))
    (fun _ => Or.inr ⟨"Hi", rfl, by decide⟩)
    (by omega)

/-- C4 counterexample.  Two deviations from the claim.  (a) `DECIDE` does
not strip only the leading marker: `replace("CLARIFY: ", "")` removes
every occurrence and `strip()` trims the remainder, so the response
`"CLARIFY: A CLARIFY: B"` yields `clarifying_question = "A B"` instead of
`"A CLARIFY: B"`.  (b) A response consisting of the bare marker
`"CLARIFY: "` yields `clarifying_question = ""`, which is falsy, so the
run ends through the `end` edge in ANSWERED, not CLARIFYING. -/
theorem c4_marker_not_only_stripped :
    (generate_response_or_tool_call
        (Except.ok { content := "CLARIFY: A CLARIFY: B", tool_calls := [] })
        stateHi).clarifying_question = some "A B" ∧
    "A B" ≠ "A CLARIFY: B" ∧
    decideLoop llmBareClarify 25 0 stateHi =
      RunResult.finished
        (applyUpdate stateHi
          (generate_response_or_tool_call
            (Except.ok { content := "CLARIFY: ", tool_calls := [] }) stateHi)) ∧
    terminalKind
        (applyUpdate stateHi
          (generate_response_or_tool_call
            (Except.ok { content := "CLARIFY: ", tool_calls := [] }) stateHi)) =
      Terminal.answered := by
  refine ⟨?_, by decide, ?_, ?_⟩ <;> with_unfolding_all rfl

/-- C4 amended.  For a response whose text begins with `"CLARIFY: "`, the
DECIDE step sets `clarifying_question` to the response text with EVERY
occurrence of the marker removed and surrounding whitespace stripped (not
only the leading marker); whenever the resulting string is non-empty the
run takes the `clarify` edge and terminates in CLARIFYING with an empty
`response` and the clarifying question set (no final answer); a response
equal to the bare marker instead proceeds to ANSWERED (see the
counterexample theorem). -/
theorem c4_amended_clarify (llm : Nat → List Message → Except String AIResp)
    (k fuel : Nat) (s : AgentState) (c : String) (tcs : List ToolCall) (q : String)
    (hllm : llm k (llmInput s) = Except.ok { content := c, tool_calls := tcs })
    (hc : pyStartsWith c "CLARIFY: " = true)
    (hq : q = pyStrip (pyReplace c "CLARIFY: " ""))
    (hqne : q ≠ "") :
    (applyUpdate s (generate_response_or_tool_call
        (Except.ok { content := c, tool_calls := tcs }) s)).clarifying_question = some q ∧
    should_continue (applyUpdate s (generate_response_or_tool_call
        (Except.ok { content := c, tool_calls := tcs }) s)) = "clarify" ∧
    decideLoop llm (fuel + 1) k s =
      RunResult.finished (applyUpdate s (generate_response_or_tool_call
        (Except.ok { content := c, tool_calls := tcs }) s)) ∧
    terminalKind (applyUpdate s (generate_response_or_tool_call
        (Except.ok { content := c, tool_calls := tcs }) s)) = Terminal.clarifying ∧
    chatResponseOf (applyUpdate s (generate_response_or_tool_call
        (Except.ok { content := c, tool_calls := tcs }) s)) =
      { response := "", clarifying_question := some q } := by
  have hgen : generate_response_or_tool_call
      (Except.ok { content := c, tool_calls := tcs }) s =
      { messages := [Message.ai c tcs], relevant_docs := s.relevant_docs,
        tool_calls := [], tool_output := none,
        clarifying_question := some (pyStrip (pyReplace c "CLARIFY: " "")) } := by
    simp [generate_response_or_tool_call, hc]
  have hclar : (applyUpdate s (generate_response_or_tool_call
      (Except.ok { content := c, tool_calls := tcs }) s)).clarifying_question = some q := by
    rw [hgen, hq]
    rfl
  have htruthy : truthyOptStr (applyUpdate s (generate_response_or_tool_call
      (Except.ok { content := c, tool_calls := tcs }) s)).clarifying_question = true := by
    rw [hclar]
    simp [truthyOptStr, hqne]
  have hsc : should_continue (applyUpdate s (generate_response_or_tool_call
      (Except.ok { content := c, tool_calls := tcs }) s)) = "clarify" := by
    rw [should_continue, if_pos htruthy]
  refine ⟨hclar, hsc, ?_, ?_, ?_⟩
  · rw [decideLoop_succ, hllm, if_neg (by rw [hsc]; decide)]
  · rw [terminalKind, if_pos htruthy]
  · rw [chatResponseOf, if_pos htruthy, hclar]

/-- C4 witness: the scenario-C response `"CLARIFY: Which city?"` produces
`clarifying_question = "Which city?"`, the `clarify` edge, a CLARIFYING
terminal state and an empty response field. -/
theorem c4_amended_clarify_witness :
    (applyUpdate stateHi (generate_response_or_tool_call
        (Except.ok { content := "CLARIFY: Which city?", tool_calls := [] })
        stateHi)).clarifying_question = some "Which city?" ∧
    should_continue (applyUpdate stateHi (generate_response_or_tool_call
        (Except.ok { content := "CLARIFY: Which city?", tool_calls := [] })
        stateHi)) = "clarify" ∧
    decideLoop llmWhichCity (0 + 1) 0 stateHi =
      RunResult.finished (applyUpdate stateHi (generate_response_or_tool_call
        (Except.ok { content := "CLARIFY: Which city?", tool_calls := [] }) stateHi)) ∧
    terminalKind (applyUpdate stateHi (generate_response_or_tool_call
        (Except.ok { content := "CLARIFY: Which city?", tool_calls := [] })
        stateHi)) = Terminal.clarifying ∧
    chatResponseOf (applyUpdate stateHi (generate_response_or_tool_call
        (Except.ok { content := "CLARIFY: Which city?", tool_calls := [] })
        stateHi)) =
      { response := "", clarifying_question := some "Which city?" } :=
  c4_amended_clarify llmWhichCity 0 0 stateHi "CLARIFY: Which city?" [] "Which city?"
    rfl (by decide) (by with_unfolding_all rfl) (by decide)

/-- C5 amended.  `execute_tool` converts an unknown tool name into an
`{"error": ...}` ToolResult (nothing is raised out of the orchestrator),
appends the tool message, and the graph proceeds to the next decision
step; the run then terminates in ANSWERED provided that decision step has
a plain outcome — a model that keeps requesting tools instead exhausts the
recursion limit (see the counterexample theorem). -/
theorem c5_amended_unknown_tool (llm : Nat → List Message → Except String AIResp)
    (k fuel : Nat) (s : AgentState) (tc0 : ToolCall) (rest : List ToolCall)
    (htcs : toolCallsOf (lastMessage s.messages) = tc0 :: rest)
    (hunk : ∀ tc ∈ tc0 :: rest, tc.name ≠ "calculator" ∧ tc.name ≠ "weather")
    (hplain : ∀ ms, plainOutcome (llm k ms)) :
    (execute_tool s).tool_output = some ((tc0 :: rest).map runOneTool) ∧
    (∀ tc ∈ tc0 :: rest, runOneTool tc =
      PyVal.dict [("error", PyVal.str (toolErrorMsg tc ("Unknown tool: " ++ tc.name)))]) ∧
    isAnsweredFinish (decideLoop llm (fuel + 1) k (applyUpdate s (execute_tool s))) := by
  refine ⟨?_, fun tc htc => ?_, ?_⟩
  · simp [execute_tool, htcs]
  · obtain ⟨h1, h2⟩ := hunk tc htc
    simp [runOneTool, h1, h2]
  · exact decideLoop_plain_answers llm k fuel _ (hplain _)

/-- C5 witness: the unknown-tool fixture state with a model that answers
plainly at the next decision step. -/
theorem c5_amended_unknown_tool_witness :
    (execute_tool stateUnknownTool).tool_output = some ([tcUnknown].map runOneTool) ∧
    (∀ tc ∈ [tcUnknown], runOneTool tc =
      PyVal.dict [("error", PyVal.str (toolErrorMsg tc ("Unknown tool: " ++ tc.name)))]) ∧
    isAnsweredFinish (decideLoop llmPlainHi (0 + 1) 0
      (applyUpdate stateUnknownTool (execute_tool stateUnknownTool))) :=
  c5_amended_unknown_tool llmPlainHi 0 0 stateUnknownTool tcUnknown []
    (by with_unfolding_all rfl)
    (fun tc htc => by
      rw [List.mem_singleton] at htc
      subst htc
      exact ⟨by decide, by decide⟩)
    (fun _ => Or.inr ⟨"Hi", rfl, by decide⟩)

/-- C5 counterexample.  On a state entering `TOOL_EXEC` with the unknown
tool name `"nope"`, `execute_tool` does return an `{"error": ...}` result
(no exception escapes), but the run does not eventually terminate in
`ANSWERED`: with a model that keeps requesting tool calls afterwards, the
graph exhausts its recursion limit and never reaches a terminal state. -/
theorem c5_unknown_tool_run_can_fail_to_answer :
    (execute_tool stateUnknownTool).tool_output =
      some [PyVal.dict [("error",
        PyVal.str (toolErrorMsg tcUnknown "Unknown tool: nope"))]] ∧
    decideLoop llmAlwaysTools 25 0
        (applyUpdate stateUnknownTool (execute_tool stateUnknownTool)) =
      RunResult.recursionError := by
  exact ⟨by with_unfolding_all rfl, decideLoop_llmAlwaysTools 25 0 _⟩

/-- C8.  Calling `upsert_vectors` with empty lists on an initialized index
is not a no-op: `np.array([])` is one-dimensional (shape `(0,)`), so the
shape unpacking `n, d = x.shape` inside `IndexFlatL2.add` raises
`ValueError` and the call raises instead of returning.  (The exception is
raised before any mutation, so the index and the payload store are
unchanged — only the "does not raise" part of the claim fails.) -/
theorem c8_empty_upsert_raises :
    upsert_vectors (create_empty_index 384) [] [] [] =
      Except.error "ValueError: not enough values to unpack (expected 2, got 1)" := by
  with_unfolding_all rfl

/-- C9 counterexample.  The calculator evaluates non-arithmetic code: the
input `"len"` is not an arithmetic expression (it contains no digits or
operators at all), yet `_execute_calculator` evaluates it via `eval` to
the `len` builtin and returns its rendering — neither the numeric value of
an arithmetic expression nor an error string. -/
theorem c9_calculator_evaluates_identifier :
    execute_calculator "len" = "<built-in function len>" ∧
    isArithInput "len" = false ∧
    pyStartsWith "<built-in function len>" "Error" = false := by
  refine ⟨?_, ?_, ?_⟩ <;> with_unfolding_all rfl

/-- C9 amended.  The calculator hands the raw string to Python `eval`:
expressions built only from numbers, `+ - * /`, unary minus and
parentheses evaluate to numeric values (so arithmetic inputs such as
`"2 + 2 * 3"` return their numeric result), but the evaluator is not
restricted to arithmetic — identifier inputs are resolved among the
builtins and evaluated without error, as `"len"` shows. -/
theorem c9_amended_eval_behavior (e : PyExpr) (v : PyVal)
    (he : nameFree e = true) (hv : pyEvalAst e = Except.ok v) :
    isNumericVal v = true ∧
    execute_calculator "2 + 2 * 3" = "8" ∧
    execute_calculator "len" = "<built-in function len>" := by
  exact ⟨nameFree_numeric e he v hv, by with_unfolding_all rfl, by with_unfolding_all rfl⟩

/-- C9 witness: the amended statement at the arithmetic expression
`2 + 2 * 3` and its value. -/
theorem c9_amended_eval_behavior_witness :
    isNumericVal (PyVal.int 8) = true ∧
    execute_calculator "2 + 2 * 3" = "8" ∧
    execute_calculator "len" = "<built-in function len>" :=
  c9_amended_eval_behavior
    (PyExpr.add (PyExpr.num 2) (PyExpr.mul (PyExpr.num 2) (PyExpr.num 3)))
    (PyVal.int 8) (by decide) (by with_unfolding_all rfl)

/-- C10.  The transcript is not append-only under the reducer of the graph:
the channel `messages` combines the old value and the list a node returns
by `left + right`, and the nodes (other than the clarify branch) return
the full prior message list, so every non-clarify step duplicates the
whole prior transcript.  Starting from a transcript holding the single
human turn `"hi"`, the RETRIEVE step yields `[human "hi", human "hi"]`
(the human turn is duplicated although the step produced no new turn),
and the DECIDE step on the same state yields the prior transcript twice
followed by the answer. -/
theorem c10_transcript_duplication :
    (applyUpdate stateHi (retrieve_documents embed0 freshManager stateHi)).messages =
      [Message.human "hi", Message.human "hi"] ∧
    (applyUpdate stateHi
        (generate_response_or_tool_call
          (Except.ok { content := "Hello!", tool_calls := [] }) stateHi)).messages =
      [Message.human "hi", Message.human "hi", Message.ai "Hello!" []] := by
  exact ⟨by with_unfolding_all rfl, by with_unfolding_all rfl⟩

end SupportAgent
